import Mathlib

/-
Verification of the `aes_frast` crate (files `src/aes_core.rs`, `src/padding_128bit.rs`,
`src/lib.rs`): a shallow embedding of the AES core (key schedule, block encryption and
decryption by lookup tables) and of the 128-bit padding module, together with proofs of
the specified properties (FIPS-197 known-answer behaviour, the encryption/decryption
round-trip law, schedule invariants, fail-fast length checking, and padding laws).

Bytes and 32-bit words are embedded as `Nat`; `u8`/`u32` arithmetic of the source is
mirrored with explicit masking (`&&& 255`, truncating casts) exactly where the source's
fixed-width types make it implicit.  Panics (failed `assert_eq!`, explicit `panic!`,
`Option::unwrap` on `None`) are embedded as error results; in every function modelled
here the source panics strictly before its first buffer write, so an error result leaves
the caller's buffer unchanged.

The constant tables of `tables.rs` (a file `include!`d by `aes_core.rs` whose content is
not part of these sources) are modelled from the spec, section 4.1, as literal tables;
each table is certified below against the GF(2^8) derivation the spec describes.
-/

namespace AesFrast

set_option maxRecDepth 100000

/-! ### Bit-level primitives of `aes_core.rs` -/

/-- The `four_u8_to_u32!` macro of `aes_core.rs`: pack four bytes, big-endian,
by XOR of shifted bytes. -/
def four_u8_to_u32 (b0 b1 b2 b3 : Nat) : Nat :=
  (b0 <<< 24) ^^^ (b1 <<< 16) ^^^ (b2 <<< 8) ^^^ b3

/-! ### GF(2^8) arithmetic (spec section 4.1)

Modelled from the spec: the constant tables of the missing `tables.rs` are
"derived mathematically from GF(2^8) arithmetic over the AES-defining polynomial".
`xtime` is multiplication by x modulo that polynomial (0x11B); `gmul` is the
shift-and-add product; `affine` is the S-box affine transform and `affineInv`
its inverse. -/

/-- Multiplication by x in GF(2^8) modulo the AES polynomial. -/
def xtime (x : Nat) : Nat :=
  ((2 * x) &&& 255) ^^^ (if x.testBit 7 then 27 else 0)

/-- Shift-and-add GF(2^8) product, one step per bit of the first factor. -/
def gmulGo : Nat → Nat → Nat → Nat
  | 0, _, _ => 0
  | n+1, a, b => (if a % 2 = 1 then b else 0) ^^^ gmulGo n (a / 2) (xtime b)

/-- GF(2^8) product of two bytes. -/
def gmul (a b : Nat) : Nat := gmulGo 8 a b

/-- Left rotation of a byte by `n` bits. -/
def rotl8 (n x : Nat) : Nat := ((x <<< n) ^^^ (x >>> (8 - n))) &&& 255

/-- The affine transform of the AES forward S-box. -/
def affine (x : Nat) : Nat :=
  x ^^^ rotl8 1 x ^^^ rotl8 2 x ^^^ rotl8 3 x ^^^ rotl8 4 x ^^^ 0x63

/-- The inverse of `affine`. -/
def affineInv (x : Nat) : Nat :=
  rotl8 1 x ^^^ rotl8 3 x ^^^ rotl8 6 x ^^^ 0x05

/-- Modelled from the spec: the forward AES S-box table `SBOX` of the missing `tables.rs` (included by `aes_core.rs` but not present in the sources); per spec section 4.1 it is the GF(2^8) multiplicative inverse followed by the affine transform. Certified against that derivation in `sboxTable_spec` below. -/
def sboxTable : List Nat := [
  99, 124, 119, 123, 242, 107, 111, 197,
  48, 1, 103, 43, 254, 215, 171, 118,
  202, 130, 201, 125, 250, 89, 71, 240,
  173, 212, 162, 175, 156, 164, 114, 192,
  183, 253, 147, 38, 54, 63, 247, 204,
  52, 165, 229, 241, 113, 216, 49, 21,
  4, 199, 35, 195, 24, 150, 5, 154,
  7, 18, 128, 226, 235, 39, 178, 117,
  9, 131, 44, 26, 27, 110, 90, 160,
  82, 59, 214, 179, 41, 227, 47, 132,
  83, 209, 0, 237, 32, 252, 177, 91,
  106, 203, 190, 57, 74, 76, 88, 207,
  208, 239, 170, 251, 67, 77, 51, 133,
  69, 249, 2, 127, 80, 60, 159, 168,
  81, 163, 64, 143, 146, 157, 56, 245,
  188, 182, 218, 33, 16, 255, 243, 210,
  205, 12, 19, 236, 95, 151, 68, 23,
  196, 167, 126, 61, 100, 93, 25, 115,
  96, 129, 79, 220, 34, 42, 144, 136,
  70, 238, 184, 20, 222, 94, 11, 219,
  224, 50, 58, 10, 73, 6, 36, 92,
  194, 211, 172, 98, 145, 149, 228, 121,
  231, 200, 55, 109, 141, 213, 78, 169,
  108, 86, 244, 234, 101, 122, 174, 8,
  186, 120, 37, 46, 28, 166, 180, 198,
  232, 221, 116, 31, 75, 189, 139, 138,
  112, 62, 181, 102, 72, 3, 246, 14,
  97, 53, 87, 185, 134, 193, 29, 158,
  225, 248, 152, 17, 105, 217, 142, 148,
  155, 30, 135, 233, 206, 85, 40, 223,
  140, 161, 137, 13, 191, 230, 66, 104,
  65, 153, 45, 15, 176, 84, 187, 22]

/-- Modelled from the spec: the inverse AES S-box table `SINV` of the missing `tables.rs`; the inverse permutation of `SBOX`. Certified in `sinvTable_spec` below. -/
def sinvTable : List Nat := [
  82, 9, 106, 213, 48, 54, 165, 56,
  191, 64, 163, 158, 129, 243, 215, 251,
  124, 227, 57, 130, 155, 47, 255, 135,
  52, 142, 67, 68, 196, 222, 233, 203,
  84, 123, 148, 50, 166, 194, 35, 61,
  238, 76, 149, 11, 66, 250, 195, 78,
  8, 46, 161, 102, 40, 217, 36, 178,
  118, 91, 162, 73, 109, 139, 209, 37,
  114, 248, 246, 100, 134, 104, 152, 22,
  212, 164, 92, 204, 93, 101, 182, 146,
  108, 112, 72, 80, 253, 237, 185, 218,
  94, 21, 70, 87, 167, 141, 157, 132,
  144, 216, 171, 0, 140, 188, 211, 10,
  247, 228, 88, 5, 184, 179, 69, 6,
  208, 44, 30, 143, 202, 63, 15, 2,
  193, 175, 189, 3, 1, 19, 138, 107,
  58, 145, 17, 65, 79, 103, 220, 234,
  151, 242, 207, 206, 240, 180, 230, 115,
  150, 172, 116, 34, 231, 173, 53, 133,
  226, 249, 55, 232, 28, 117, 223, 110,
  71, 241, 26, 113, 29, 41, 197, 137,
  111, 183, 98, 14, 170, 24, 190, 27,
  252, 86, 62, 75, 198, 210, 121, 32,
  154, 219, 192, 254, 120, 205, 90, 244,
  31, 221, 168, 51, 136, 7, 199, 49,
  177, 18, 16, 89, 39, 128, 236, 95,
  96, 81, 127, 169, 25, 181, 74, 13,
  45, 229, 122, 159, 147, 201, 156, 239,
  160, 224, 59, 77, 174, 42, 245, 176,
  200, 235, 187, 60, 131, 83, 153, 97,
  23, 43, 4, 126, 186, 119, 214, 38,
  225, 105, 20, 99, 85, 33, 12, 125]

/-- Modelled from the spec: encryption T-table `TE0` of the missing `tables.rs`; the forward S-box multiplied by column 0 of the MixColumns matrix in GF(2^8) (spec section 4.1). Certified in `TE0_spec` below. -/
def te0Table : List Nat := [
  3328402341, 4168907908, 4000806809, 4135287693, 4294111757, 3597364157, 3731845041, 2445657428,
  1613770832, 33620227, 3462883241, 1445669757, 3892248089, 3050821474, 1303096294, 3967186586,
  2412431941, 528646813, 2311702848, 4202528135, 4026202645, 2992200171, 2387036105, 4226871307,
  1101901292, 3017069671, 1604494077, 1169141738, 597466303, 1403299063, 3832705686, 2613100635,
  1974974402, 3791519004, 1033081774, 1277568618, 1815492186, 2118074177, 4126668546, 2211236943,
  1748251740, 1369810420, 3521504564, 4193382664, 3799085459, 2883115123, 1647391059, 706024767,
  134480908, 2512897874, 1176707941, 2646852446, 806885416, 932615841, 168101135, 798661301,
  235341577, 605164086, 461406363, 3756188221, 3454790438, 1311188841, 2142417613, 3933566367,
  302582043, 495158174, 1479289972, 874125870, 907746093, 3698224818, 3025820398, 1537253627,
  2756858614, 1983593293, 3084310113, 2108928974, 1378429307, 3722699582, 1580150641, 327451799,
  2790478837, 3117535592, 0, 3253595436, 1075847264, 3825007647, 2041688520, 3059440621,
  3563743934, 2378943302, 1740553945, 1916352843, 2487896798, 2555137236, 2958579944, 2244988746,
  3151024235, 3320835882, 1336584933, 3992714006, 2252555205, 2588757463, 1714631509, 293963156,
  2319795663, 3925473552, 67240454, 4269768577, 2689618160, 2017213508, 631218106, 1269344483,
  2723238387, 1571005438, 2151694528, 93294474, 1066570413, 563977660, 1882732616, 4059428100,
  1673313503, 2008463041, 2950355573, 1109467491, 537923632, 3858759450, 4260623118, 3218264685,
  2177748300, 403442708, 638784309, 3287084079, 3193921505, 899127202, 2286175436, 773265209,
  2479146071, 1437050866, 4236148354, 2050833735, 3362022572, 3126681063, 840505643, 3866325909,
  3227541664, 427917720, 2655997905, 2749160575, 1143087718, 1412049534, 999329963, 193497219,
  2353415882, 3354324521, 1807268051, 672404540, 2816401017, 3160301282, 369822493, 2916866934,
  3688947771, 1681011286, 1949973070, 336202270, 2454276571, 201721354, 1210328172, 3093060836,
  2680341085, 3184776046, 1135389935, 3294782118, 965841320, 831886756, 3554993207, 4068047243,
  3588745010, 2345191491, 1849112409, 3664604599, 26054028, 2983581028, 2622377682, 1235855840,
  3630984372, 2891339514, 4092916743, 3488279077, 3395642799, 4101667470, 1202630377, 268961816,
  1874508501, 4034427016, 1243948399, 1546530418, 941366308, 1470539505, 1941222599, 2546386513,
  3421038627, 2715671932, 3899946140, 1042226977, 2521517021, 1639824860, 227249030, 260737669,
  3765465232, 2084453954, 1907733956, 3429263018, 2420656344, 100860677, 4160157185, 470683154,
  3261161891, 1781871967, 2924959737, 1773779408, 394692241, 2579611992, 974986535, 664706745,
  3655459128, 3958962195, 731420851, 571543859, 3530123707, 2849626480, 126783113, 865375399,
  765172662, 1008606754, 361203602, 3387549984, 2278477385, 2857719295, 1344809080, 2782912378,
  59542671, 1503764984, 160008576, 437062935, 1707065306, 3622233649, 2218934982, 3496503480,
  2185314755, 697932208, 1512910199, 504303377, 2075177163, 2824099068, 1841019862, 739644986]

/-- Modelled from the spec: encryption T-table `TE1` of the missing `tables.rs`; the forward S-box multiplied by column 1 of the MixColumns matrix in GF(2^8) (spec section 4.1). Certified in `TE1_spec` below. -/
def te1Table : List Nat := [
  2781242211, 2230877308, 2582542199, 2381740923, 234877682, 3184946027, 2984144751, 1418839493,
  1348481072, 50462977, 2848876391, 2102799147, 434634494, 1656084439, 3863849899, 2599188086,
  1167051466, 2636087938, 1082771913, 2281340285, 368048890, 3954334041, 3381544775, 201060592,
  3963727277, 1739838676, 4250903202, 3930435503, 3206782108, 4149453988, 2531553906, 1536934080,
  3262494647, 484572669, 2923271059, 1783375398, 1517041206, 1098792767, 49674231, 1334037708,
  1550332980, 4098991525, 886171109, 150598129, 2481090929, 1940642008, 1398944049, 1059722517,
  201851908, 1385547719, 1699095331, 1587397571, 674240536, 2704774806, 252314885, 3039795866,
  151914247, 908333586, 2602270848, 1038082786, 651029483, 1766729511, 3447698098, 2682942837,
  454166793, 2652734339, 1951935532, 775166490, 758520603, 3000790638, 4004797018, 4217086112,
  4137964114, 1299594043, 1639438038, 3464344499, 2068982057, 1054729187, 1901997871, 2534638724,
  4121318227, 1757008337, 0, 750906861, 1614815264, 535035132, 3363418545, 3988151131,
  3201591914, 1183697867, 3647454910, 1265776953, 3734260298, 3566750796, 3903871064, 1250283471,
  1807470800, 717615087, 3847203498, 384695291, 3313910595, 3617213773, 1432761139, 2484176261,
  3481945413, 283769337, 100925954, 2180939647, 4037038160, 1148730428, 3123027871, 3813386408,
  4087501137, 4267549603, 3229630528, 2315620239, 2906624658, 3156319645, 1215313976, 82966005,
  3747855548, 3245848246, 1974459098, 1665278241, 807407632, 451280895, 251524083, 1841287890,
  1283575245, 337120268, 891687699, 801369324, 3787349855, 2721421207, 3431482436, 959321879,
  1469301956, 4065699751, 2197585534, 1199193405, 2898814052, 3887750493, 724703513, 2514908019,
  2696962144, 2551808385, 3516813135, 2141445340, 1715741218, 2119445034, 2872807568, 2198571144,
  3398190662, 700968686, 3547052216, 1009259540, 2041044702, 3803995742, 487983883, 1991105499,
  1004265696, 1449407026, 1316239930, 504629770, 3683797321, 168560134, 1816667172, 3837287516,
  1570751170, 1857934291, 4014189740, 2797888098, 2822345105, 2754712981, 936633572, 2347923833,
  852879335, 1133234376, 1500395319, 3084545389, 2348912013, 1689376213, 3533459022, 3762923945,
  3034082412, 4205598294, 133428468, 634383082, 2949277029, 2398386810, 3913789102, 403703816,
  3580869306, 2297460856, 1867130149, 1918643758, 607656988, 4049053350, 3346248884, 1368901318,
  600565992, 2090982877, 2632479860, 557719327, 3717614411, 3697393085, 2249034635, 2232388234,
  2430627952, 1115438654, 3295786421, 2865522278, 3633334344, 84280067, 33027830, 303828494,
  2747425121, 1600795957, 4188952407, 3496589753, 2434238086, 1486471617, 658119965, 3106381470,
  953803233, 334231800, 3005978776, 857870609, 3151128937, 1890179545, 2298973838, 2805175444,
  3056442267, 574365214, 2450884487, 550103529, 1233637070, 4289353045, 2018519080, 2057691103,
  2399374476, 4166623649, 2148108681, 387583245, 3664101311, 836232934, 3330556482, 3100665960,
  3280093505, 2955516313, 2002398509, 287182607, 3413881008, 4238890068, 3597515707, 975967766]

/-- Modelled from the spec: encryption T-table `TE2` of the missing `tables.rs`; the forward S-box multiplied by column 2 of the MixColumns matrix in GF(2^8) (spec section 4.1). Certified in `TE2_spec` below. -/
def te2Table : List Nat := [
  1671808611, 2089089148, 2006576759, 2072901243, 4061003762, 1807603307, 1873927791, 3310653893,
  810573872, 16974337, 1739181671, 729634347, 4263110654, 3613570519, 2883997099, 1989864566,
  3393556426, 2191335298, 3376449993, 2106063485, 4195741690, 1508618841, 1204391495, 4027317232,
  2917941677, 3563566036, 2734514082, 2951366063, 2629772188, 2767672228, 1922491506, 3227229120,
  3082974647, 4246528509, 2477669779, 644500518, 911895606, 1061256767, 4144166391, 3427763148,
  878471220, 2784252325, 3845444069, 4043897329, 1905517169, 3631459288, 827548209, 356461077,
  67897348, 3344078279, 593839651, 3277757891, 405286936, 2527147926, 84871685, 2595565466,
  118033927, 305538066, 2157648768, 3795705826, 3945188843, 661212711, 2999812018, 1973414517,
  152769033, 2208177539, 745822252, 439235610, 455947803, 1857215598, 1525593178, 2700827552,
  1391895634, 994932283, 3596728278, 3016654259, 695947817, 3812548067, 795958831, 2224493444,
  1408607827, 3513301457, 0, 3979133421, 543178784, 4229948412, 2982705585, 1542305371,
  1790891114, 3410398667, 3201918910, 961245753, 1256100938, 1289001036, 1491644504, 3477767631,
  3496721360, 4012557807, 2867154858, 4212583931, 1137018435, 1305975373, 861234739, 2241073541,
  1171229253, 4178635257, 33948674, 2139225727, 1357946960, 1011120188, 2679776671, 2833468328,
  1374921297, 2751356323, 1086357568, 2408187279, 2460827538, 2646352285, 944271416, 4110742005,
  3168756668, 3066132406, 3665145818, 560153121, 271589392, 4279952895, 4077846003, 3530407890,
  3444343245, 202643468, 322250259, 3962553324, 1608629855, 2543990167, 1154254916, 389623319,
  3294073796, 2817676711, 2122513534, 1028094525, 1689045092, 1575467613, 422261273, 1939203699,
  1621147744, 2174228865, 1339137615, 3699352540, 577127458, 712922154, 2427141008, 2290289544,
  1187679302, 3995715566, 3100863416, 339486740, 3732514782, 1591917662, 186455563, 3681988059,
  3762019296, 844522546, 978220090, 169743370, 1239126601, 101321734, 611076132, 1558493276,
  3260915650, 3547250131, 2901361580, 1655096418, 2443721105, 2510565781, 3828863972, 2039214713,
  3878868455, 3359869896, 928607799, 1840765549, 2374762893, 3580146133, 1322425422, 2850048425,
  1823791212, 1459268694, 4094161908, 3928346602, 1706019429, 2056189050, 2934523822, 135794696,
  3134549946, 2022240376, 628050469, 779246638, 472135708, 2800834470, 3032970164, 3327236038,
  3894660072, 3715932637, 1956440180, 522272287, 1272813131, 3185336765, 2340818315, 2323976074,
  1888542832, 1044544574, 3049550261, 1722469478, 1222152264, 50660867, 4127324150, 236067854,
  1638122081, 895445557, 1475980887, 3117443513, 2257655686, 3243809217, 489110045, 2662934430,
  3778599393, 4162055160, 2561878936, 288563729, 1773916777, 3648039385, 2391345038, 2493985684,
  2612407707, 505560094, 2274497927, 3911240169, 3460925390, 1442818645, 678973480, 3749357023,
  2358182796, 2717407649, 2306869641, 219617805, 3218761151, 3862026214, 1120306242, 1756942440,
  1103331905, 2578459033, 762796589, 252780047, 2966125488, 1425844308, 3151392187, 372911126]

/-- Modelled from the spec: encryption T-table `TE3` of the missing `tables.rs`; the forward S-box multiplied by column 3 of the MixColumns matrix in GF(2^8) (spec section 4.1). Certified in `TE3_spec` below. -/
def te3Table : List Nat := [
  1667474886, 2088535288, 2004326894, 2071694838, 4075949567, 1802223062, 1869591006, 3318043793,
  808472672, 16843522, 1734846926, 724270422, 4278065639, 3621216949, 2880169549, 1987484396,
  3402253711, 2189597983, 3385409673, 2105378810, 4210693615, 1499065266, 1195886990, 4042263547,
  2913856577, 3570689971, 2728590687, 2947541573, 2627518243, 2762274643, 1920112356, 3233831835,
  3082273397, 4261223649, 2475929149, 640051788, 909531756, 1061110142, 4160160501, 3435941763,
  875846760, 2779116625, 3857003729, 4059105529, 1903268834, 3638064043, 825316194, 353713962,
  67374088, 3351728789, 589522246, 3284360861, 404236336, 2526454071, 84217610, 2593830191,
  117901582, 303183396, 2155911963, 3806477791, 3958056653, 656894286, 2998062463, 1970642922,
  151591698, 2206440989, 741110872, 437923380, 454765878, 1852748508, 1515908788, 2694904667,
  1381168804, 993742198, 3604373943, 3014905469, 690584402, 3823320797, 791638366, 2223281939,
  1398011302, 3520161977, 0, 3991743681, 538992704, 4244381667, 2981218425, 1532751286,
  1785380564, 3419096717, 3200178535, 960056178, 1246420628, 1280103576, 1482221744, 3486468741,
  3503319995, 4025428677, 2863326543, 4227536621, 1128514950, 1296947098, 859002214, 2240123921,
  1162203018, 4193849577, 33687044, 2139062782, 1347481760, 1010582648, 2678045221, 2829640523,
  1364325282, 2745433693, 1077985408, 2408548869, 2459086143, 2644360225, 943212656, 4126475505,
  3166494563, 3065430391, 3671750063, 555836226, 269496352, 4294908645, 4092792573, 3537006015,
  3452783745, 202118168, 320025894, 3974901699, 1600119230, 2543297077, 1145359496, 387397934,
  3301201811, 2812801621, 2122220284, 1027426170, 1684319432, 1566435258, 421079858, 1936954854,
  1616945344, 2172753945, 1330631070, 3705438115, 572679748, 707427924, 2425400123, 2290647819,
  1179044492, 4008585671, 3099120491, 336870440, 3739122087, 1583276732, 185277718, 3688593069,
  3772791771, 842159716, 976899700, 168435220, 1229577106, 101059084, 606366792, 1549591736,
  3267517855, 3553849021, 2897014595, 1650632388, 2442242105, 2509612081, 3840161747, 2038008818,
  3890688725, 3368567691, 926374254, 1835907034, 2374863873, 3587531953, 1313788572, 2846482505,
  1819063512, 1448540844, 4109633523, 3941213647, 1701162954, 2054852340, 2930698567, 134748176,
  3132806511, 2021165296, 623210314, 774795868, 471606328, 2795958615, 3031746419, 3334885783,
  3907527627, 3722280097, 1953799400, 522133822, 1263263126, 3183336545, 2341176845, 2324333839,
  1886425312, 1044267644, 3048588401, 1718004428, 1212733584, 50529542, 4143317495, 235803164,
  1633788866, 892690282, 1465383342, 3115962473, 2256965911, 3250673817, 488449850, 2661202215,
  3789633753, 4177007595, 2560144171, 286339874, 1768537042, 3654906025, 2391705863, 2492770099,
  2610673197, 505291324, 2273808917, 3924369609, 3469625735, 1431699370, 673740880, 3755965093,
  2358021891, 2711746649, 2307489801, 218961690, 3217021541, 3873845719, 1111672452, 1751693520,
  1094828930, 2576986153, 757954394, 252645662, 2964376443, 1414855848, 3149649517, 370555436]

/-- Modelled from the spec: decryption T-table `TD0` of the missing `tables.rs`; the inverse S-box multiplied by column 0 of the inverse MixColumns matrix in GF(2^8) (spec section 4.1). Certified in `TD0_spec` below. -/
def td0Table : List Nat := [
  1374988112, 2118214995, 437757123, 975658646, 1001089995, 530400753, 2902087851, 1273168787,
  540080725, 2910219766, 2295101073, 4110568485, 1340463100, 3307916247, 641025152, 3043140495,
  3736164937, 632953703, 1172967064, 1576976609, 3274667266, 2169303058, 2370213795, 1809054150,
  59727847, 361929877, 3211623147, 2505202138, 3569255213, 1484005843, 1239443753, 2395588676,
  1975683434, 4102977912, 2572697195, 666464733, 3202437046, 4035489047, 3374361702, 2110667444,
  1675577880, 3843699074, 2538681184, 1649639237, 2976151520, 3144396420, 4269907996, 4178062228,
  1883793496, 2403728665, 2497604743, 1383856311, 2876494627, 1917518562, 3810496343, 1716890410,
  3001755655, 800440835, 2261089178, 3543599269, 807962610, 599762354, 33778362, 3977675356,
  2328828971, 2809771154, 4077384432, 1315562145, 1708848333, 101039829, 3509871135, 3299278474,
  875451293, 2733856160, 92987698, 2767645557, 193195065, 1080094634, 1584504582, 3178106961,
  1042385657, 2531067453, 3711829422, 1306967366, 2438237621, 1908694277, 67556463, 1615861247,
  429456164, 3602770327, 2302690252, 1742315127, 2968011453, 126454664, 3877198648, 2043211483,
  2709260871, 2084704233, 4169408201, 0, 159417987, 841739592, 504459436, 1817866830,
  4245618683, 260388950, 1034867998, 908933415, 168810852, 1750902305, 2606453969, 607530554,
  202008497, 2472011535, 3035535058, 463180190, 2160117071, 1641816226, 1517767529, 470948374,
  3801332234, 3231722213, 1008918595, 303765277, 235474187, 4069246893, 766945465, 337553864,
  1475418501, 2943682380, 4003061179, 2743034109, 4144047775, 1551037884, 1147550661, 1543208500,
  2336434550, 3408119516, 3069049960, 3102011747, 3610369226, 1113818384, 328671808, 2227573024,
  2236228733, 3535486456, 2935566865, 3341394285, 496906059, 3702665459, 226906860, 2009195472,
  733156972, 2842737049, 294930682, 1206477858, 2835123396, 2700099354, 1451044056, 573804783,
  2269728455, 3644379585, 2362090238, 2564033334, 2801107407, 2776292904, 3669462566, 1068351396,
  742039012, 1350078989, 1784663195, 1417561698, 4136440770, 2430122216, 775550814, 2193862645,
  2673705150, 1775276924, 1876241833, 3475313331, 3366754619, 270040487, 3902563182, 3678124923,
  3441850377, 1851332852, 3969562369, 2203032232, 3868552805, 2868897406, 566021896, 4011190502,
  3135740889, 1248802510, 3936291284, 699432150, 832877231, 708780849, 3332740144, 899835584,
  1951317047, 4236429990, 3767586992, 866637845, 4043610186, 1106041591, 2144161806, 395441711,
  1984812685, 1139781709, 3433712980, 3835036895, 2664543715, 1282050075, 3240894392, 1181045119,
  2640243204, 25965917, 4203181171, 4211818798, 3009879386, 2463879762, 3910161971, 1842759443,
  2597806476, 933301370, 1509430414, 3943906441, 3467192302, 3076639029, 3776767469, 2051518780,
  2631065433, 1441952575, 404016761, 1942435775, 1408749034, 1610459739, 3745345300, 2017778566,
  3400528769, 3110650942, 941896748, 3265478751, 371049330, 3168937228, 675039627, 4279080257,
  967311729, 135050206, 3635733660, 1683407248, 2076935265, 3576870512, 1215061108, 3501741890]

/-- Modelled from the spec: decryption T-table `TD1` of the missing `tables.rs`; the inverse S-box multiplied by column 1 of the inverse MixColumns matrix in GF(2^8) (spec section 4.1). Certified in `TD1_spec` below. -/
def td1Table : List Nat := [
  1347548327, 1400783205, 3273267108, 2520393566, 3409685355, 4045380933, 2880240216, 2471224067,
  1428173050, 4138563181, 2441661558, 636813900, 4233094615, 3620022987, 2149987652, 2411029155,
  1239331162, 1730525723, 2554718734, 3781033664, 46346101, 310463728, 2743944855, 3328955385,
  3875770207, 2501218972, 3955191162, 3667219033, 768917123, 3545789473, 692707433, 1150208456,
  1786102409, 2029293177, 1805211710, 3710368113, 3065962831, 401639597, 1724457132, 3028143674,
  409198410, 2196052529, 1620529459, 1164071807, 3769721975, 2226875310, 486441376, 2499348523,
  1483753576, 428819965, 2274680428, 3075636216, 598438867, 3799141122, 1474502543, 711349675,
  129166120, 53458370, 2592523643, 2782082824, 4063242375, 2988687269, 3120694122, 1559041666,
  730517276, 2460449204, 4042459122, 2706270690, 3446004468, 3573941694, 533804130, 2328143614,
  2637442643, 2695033685, 839224033, 1973745387, 957055980, 2856345839, 106852767, 1371368976,
  4181598602, 1033297158, 2933734917, 1179510461, 3046200461, 91341917, 1862534868, 4284502037,
  605657339, 2547432937, 3431546947, 2003294622, 3182487618, 2282195339, 954669403, 3682191598,
  1201765386, 3917234703, 3388507166, 0, 2198438022, 1211247597, 2887651696, 1315723890,
  4227665663, 1443857720, 507358933, 657861945, 1678381017, 560487590, 3516619604, 975451694,
  2970356327, 261314535, 3535072918, 2652609425, 1333838021, 2724322336, 1767536459, 370938394,
  182621114, 3854606378, 1128014560, 487725847, 185469197, 2918353863, 3106780840, 3356761769,
  2237133081, 1286567175, 3152976349, 4255350624, 2683765030, 3160175349, 3309594171, 878443390,
  1988838185, 3704300486, 1756818940, 1673061617, 3403100636, 272786309, 1075025698, 545572369,
  2105887268, 4174560061, 296679730, 1841768865, 1260232239, 4091327024, 3960309330, 3497509347,
  1814803222, 2578018489, 4195456072, 575138148, 3299409036, 446754879, 3629546796, 4011996048,
  3347532110, 3252238545, 4270639778, 915985419, 3483825537, 681933534, 651868046, 2755636671,
  3828103837, 223377554, 2607439820, 1649704518, 3270937875, 3901806776, 1580087799, 4118987695,
  3198115200, 2087309459, 2842678573, 3016697106, 1003007129, 2802849917, 1860738147, 2077965243,
  164439672, 4100872472, 32283319, 2827177882, 1709610350, 2125135846, 136428751, 3874428392,
  3652904859, 3460984630, 3572145929, 3593056380, 2939266226, 824852259, 818324884, 3224740454,
  930369212, 2801566410, 2967507152, 355706840, 1257309336, 4148292826, 243256656, 790073846,
  2373340630, 1296297904, 1422699085, 3756299780, 3818836405, 457992840, 3099667487, 2135319889,
  77422314, 1560382517, 1945798516, 788204353, 1521706781, 1385356242, 870912086, 325965383,
  2358957921, 2050466060, 2388260884, 2313884476, 4006521127, 901210569, 3990953189, 1014646705,
  1503449823, 1062597235, 2031621326, 3212035895, 3931371469, 1533017514, 350174575, 2256028891,
  2177544179, 1052338372, 741876788, 1606591296, 1914052035, 213705253, 2334669897, 1107234197,
  1899603969, 3725069491, 2631447780, 2422494913, 1635502980, 1893020342, 1950903388, 1120974935]

/-- Modelled from the spec: decryption T-table `TD2` of the missing `tables.rs`; the inverse S-box multiplied by column 2 of the inverse MixColumns matrix in GF(2^8) (spec section 4.1). Certified in `TD2_spec` below. -/
def td2Table : List Nat := [
  2807058932, 1699970625, 2764249623, 1586903591, 1808481195, 1173430173, 1487645946, 59984867,
  4199882800, 1844882806, 1989249228, 1277555970, 3623636965, 3419915562, 1149249077, 2744104290,
  1514790577, 459744698, 244860394, 3235995134, 1963115311, 4027744588, 2544078150, 4190530515,
  1608975247, 2627016082, 2062270317, 1507497298, 2200818878, 567498868, 1764313568, 3359936201,
  2305455554, 2037970062, 1047239000, 1910319033, 1337376481, 2904027272, 2892417312, 984907214,
  1243112415, 830661914, 861968209, 2135253587, 2011214180, 2927934315, 2686254721, 731183368,
  1750626376, 4246310725, 1820824798, 4172763771, 3542330227, 48394827, 2404901663, 2871682645,
  671593195, 3254988725, 2073724613, 145085239, 2280796200, 2779915199, 1790575107, 2187128086,
  472615631, 3029510009, 4075877127, 3802222185, 4107101658, 3201631749, 1646252340, 4270507174,
  1402811438, 1436590835, 3778151818, 3950355702, 3963161475, 4020912224, 2667994737, 273792366,
  2331590177, 104699613, 95345982, 3175501286, 2377486676, 1560637892, 3564045318, 369057872,
  4213447064, 3919042237, 1137477952, 2658625497, 1119727848, 2340947849, 1530455833, 4007360968,
  172466556, 266959938, 516552836, 0, 2256734592, 3980931627, 1890328081, 1917742170,
  4294704398, 945164165, 3575528878, 958871085, 3647212047, 2787207260, 1423022939, 775562294,
  1739656202, 3876557655, 2530391278, 2443058075, 3310321856, 547512796, 1265195639, 437656594,
  3121275539, 719700128, 3762502690, 387781147, 218828297, 3350065803, 2830708150, 2848461854,
  428169201, 122466165, 3720081049, 1627235199, 648017665, 4122762354, 1002783846, 2117360635,
  695634755, 3336358691, 4234721005, 4049844452, 3704280881, 2232435299, 574624663, 287343814,
  612205898, 1039717051, 840019705, 2708326185, 793451934, 821288114, 1391201670, 3822090177,
  376187827, 3113855344, 1224348052, 1679968233, 2361698556, 1058709744, 752375421, 2431590963,
  1321699145, 3519142200, 2734591178, 188127444, 2177869557, 3727205754, 2384911031, 3215212461,
  2648976442, 2450346104, 3432737375, 1180849278, 331544205, 3102249176, 4150144569, 2952102595,
  2159976285, 2474404304, 766078933, 313773861, 2570832044, 2108100632, 1668212892, 3145456443,
  2013908262, 418672217, 3070356634, 2594734927, 1852171925, 3867060991, 3473416636, 3907448597,
  2614737639, 919489135, 164948639, 2094410160, 2997825956, 590424639, 2486224549, 1723872674,
  3157750862, 3399941250, 3501252752, 3625268135, 2555048196, 3673637356, 1343127501, 4130281361,
  3599595085, 2957853679, 1297403050, 81781910, 3051593425, 2283490410, 532201772, 1367295589,
  3926170974, 895287692, 1953757831, 1093597963, 492483431, 3528626907, 1446242576, 1192455638,
  1636604631, 209336225, 344873464, 1015671571, 669961897, 3375740769, 3857572124, 2973530695,
  3747192018, 1933530610, 3464042516, 935293895, 3454686199, 2858115069, 1863638845, 3683022916,
  4085369519, 3292445032, 875313188, 1080017571, 3279033885, 621591778, 1233856572, 2504130317,
  24197544, 3017672716, 3835484340, 3247465558, 2220981195, 3060847922, 1551124588, 1463996600]

/-- Modelled from the spec: decryption T-table `TD3` of the missing `tables.rs`; the inverse S-box multiplied by column 3 of the inverse MixColumns matrix in GF(2^8) (spec section 4.1). Certified in `TD3_spec` below. -/
def td3Table : List Nat := [
  4104605777, 1097159550, 396673818, 660510266, 2875968315, 2638606623, 4200115116, 3808662347,
  821712160, 1986918061, 3430322568, 38544885, 3856137295, 718002117, 893681702, 1654886325,
  2975484382, 3122358053, 3926825029, 4274053469, 796197571, 1290801793, 1184342925, 3556361835,
  2405426947, 2459735317, 1836772287, 1381620373, 3196267988, 1948373848, 3764988233, 3385345166,
  3263785589, 2390325492, 1480485785, 3111247143, 3780097726, 2293045232, 548169417, 3459953789,
  3746175075, 439452389, 1362321559, 1400849762, 1685577905, 1806599355, 2174754046, 137073913,
  1214797936, 1174215055, 3731654548, 2079897426, 1943217067, 1258480242, 529487843, 1437280870,
  3945269170, 3049390895, 3313212038, 923313619, 679998000, 3215307299, 57326082, 377642221,
  3474729866, 2041877159, 133361907, 1776460110, 3673476453, 96392454, 878845905, 2801699524,
  777231668, 4082475170, 2330014213, 4142626212, 2213296395, 1626319424, 1906247262, 1846563261,
  562755902, 3708173718, 1040559837, 3871163981, 1418573201, 3294430577, 114585348, 1343618912,
  2566595609, 3186202582, 1078185097, 3651041127, 3896688048, 2307622919, 425408743, 3371096953,
  2081048481, 1108339068, 2216610296, 0, 2156299017, 736970802, 292596766, 1517440620,
  251657213, 2235061775, 2933202493, 758720310, 265905162, 1554391400, 1532285339, 908999204,
  174567692, 1474760595, 4002861748, 2610011675, 3234156416, 3693126241, 2001430874, 303699484,
  2478443234, 2687165888, 585122620, 454499602, 151849742, 2345119218, 3064510765, 514443284,
  4044981591, 1963412655, 2581445614, 2137062819, 19308535, 1928707164, 1715193156, 4219352155,
  1126790795, 600235211, 3992742070, 3841024952, 836553431, 1669664834, 2535604243, 3323011204,
  1243905413, 3141400786, 4180808110, 698445255, 2653899549, 2989552604, 2253581325, 3252932727,
  3004591147, 1891211689, 2487810577, 3915653703, 4237083816, 4030667424, 2100090966, 865136418,
  1229899655, 953270745, 3399679628, 3557504664, 4118925222, 2061379749, 3079546586, 2915017791,
  983426092, 2022837584, 1607244650, 2118541908, 2366882550, 3635996816, 972512814, 3283088770,
  1568718495, 3499326569, 3576539503, 621982671, 2895723464, 410887952, 2623762152, 1002142683,
  645401037, 1494807662, 2595684844, 1335535747, 2507040230, 4293295786, 3167684641, 367585007,
  3885750714, 1865862730, 2668221674, 2960971305, 2763173681, 1059270954, 2777952454, 2724642869,
  1320957812, 2194319100, 2429595872, 2815956275, 77089521, 3973773121, 3444575871, 2448830231,
  1305906550, 4021308739, 2857194700, 2516901860, 3518358430, 1787304780, 740276417, 1699839814,
  1592394909, 2352307457, 2272556026, 188821243, 1729977011, 3687994002, 274084841, 3594982253,
  3613494426, 2701949495, 4162096729, 322734571, 2837966542, 1640576439, 484830689, 1202797690,
  3537852828, 4067639125, 349075736, 3342319475, 4157467219, 4255800159, 1030690015, 1155237496,
  2951971274, 1757691577, 607398968, 2738905026, 499347990, 3794078908, 1011452712, 227885567,
  2818666809, 213114376, 3034881240, 1455525988, 3414450555, 850817237, 1817998408, 3092726480]

/-- Table lookup `SBOX[x]` of the source. -/
def SBOX (x : Nat) : Nat := sboxTable.getD x 0

/-- Table lookup `SINV[x]` of the source. -/
def SINV (x : Nat) : Nat := sinvTable.getD x 0

/-- Table lookup `TE0[x]` of the source. -/
def TE0 (x : Nat) : Nat := te0Table.getD x 0

/-- Table lookup `TE1[x]` of the source. -/
def TE1 (x : Nat) : Nat := te1Table.getD x 0

/-- Table lookup `TE2[x]` of the source. -/
def TE2 (x : Nat) : Nat := te2Table.getD x 0

/-- Table lookup `TE3[x]` of the source. -/
def TE3 (x : Nat) : Nat := te3Table.getD x 0

/-- Table lookup `TD0[x]` of the source. -/
def TD0 (x : Nat) : Nat := td0Table.getD x 0

/-- Table lookup `TD1[x]` of the source. -/
def TD1 (x : Nat) : Nat := td1Table.getD x 0

/-- Table lookup `TD2[x]` of the source. -/
def TD2 (x : Nat) : Nat := td2Table.getD x 0

/-- Table lookup `TD3[x]` of the source. -/
def TD3 (x : Nat) : Nat := td3Table.getD x 0

/-- Modelled from the spec: the round-constant table `RC` of the missing `tables.rs`;
"the GF(2^8) powers of x needed to perturb the first byte of each key-schedule word
per round" (spec section 4.1).  Indices 0..9 are the ones the key schedules read. -/
def rcTable : List Nat := [1, 2, 4, 8, 16, 32, 64, 128, 27, 54]

/-- Table lookup `RC[i]` of the source. -/
def RC (i : Nat) : Nat := rcTable.getD i 0

/-! ### Key schedule (`aes_core.rs`)

Failure model: each function returns the buffer contents after the call together
with an optional panic message.  In the source every panic (`assert_eq!` or
`panic!`) happens before the first write to the destination buffer, so a panicking
call leaves the buffer unchanged; on success every word of the buffer is written,
so the result is a function of the key alone. -/

/-- `N_SUBKEYS_128BIT` of `aes_core.rs`. -/
def N_SUBKEYS_128BIT : Nat := 44

/-- `N_SUBKEYS_192BIT` of `aes_core.rs`. -/
def N_SUBKEYS_192BIT : Nat := 52

/-- `N_SUBKEYS_256BIT` of `aes_core.rs`. -/
def N_SUBKEYS_256BIT : Nat := 60

/-- The `round_g_function!` macro of `aes_core.rs`. -/
def round_g_function (w r : Nat) : Nat :=
  four_u8_to_u32
    (SBOX ((w >>> 16) &&& 255) ^^^ RC r)
    (SBOX ((w >>> 8) &&& 255))
    (SBOX (w &&& 255))
    (SBOX (w >>> 24))

/-- The `round_h_function!` macro of `aes_core.rs` (256-bit schedule only). -/
def round_h_function (w : Nat) : Nat :=
  four_u8_to_u32
    (SBOX (w >>> 24))
    (SBOX ((w >>> 16) &&& 255))
    (SBOX ((w >>> 8) &&& 255))
    (SBOX (w &&& 255))

/-- The 44 words the `key_schedule_128_function!` macro writes (its two loops):
four packed key words, then ten rounds of four words each. -/
def ks128Words (origin : List Nat) : List Nat :=
  let init := (List.range 4).map (fun i =>
    four_u8_to_u32 (origin.getD (4*i) 0) (origin.getD (4*i+1) 0)
                   (origin.getD (4*i+2) 0) (origin.getD (4*i+3) 0))
  (List.range 10).foldl (fun ks i =>
    let w4 := ks.getD (4*i) 0 ^^^ round_g_function (ks.getD (4*i+3) 0) i
    let w5 := ks.getD (4*i+1) 0 ^^^ w4
    let w6 := ks.getD (4*i+2) 0 ^^^ w5
    let w7 := ks.getD (4*i+3) 0 ^^^ w6
    ks ++ [w4, w5, w6, w7]) init

/-- The 52 words the `key_schedule_192_function!` macro writes: six packed key
words, seven rounds of six words, and a final partial round of four words. -/
def ks192Words (origin : List Nat) : List Nat :=
  let init := (List.range 6).map (fun i =>
    four_u8_to_u32 (origin.getD (4*i) 0) (origin.getD (4*i+1) 0)
                   (origin.getD (4*i+2) 0) (origin.getD (4*i+3) 0))
  let ks := (List.range 7).foldl (fun ks i =>
    let w6 := ks.getD (6*i) 0 ^^^ round_g_function (ks.getD (6*i+5) 0) i
    let w7 := ks.getD (6*i+1) 0 ^^^ w6
    let w8 := ks.getD (6*i+2) 0 ^^^ w7
    let w9 := ks.getD (6*i+3) 0 ^^^ w8
    let w10 := ks.getD (6*i+4) 0 ^^^ w9
    let w11 := ks.getD (6*i+5) 0 ^^^ w10
    ks ++ [w6, w7, w8, w9, w10, w11]) init
  let w48 := ks.getD 42 0 ^^^ round_g_function (ks.getD 47 0) 7
  let w49 := ks.getD 43 0 ^^^ w48
  let w50 := ks.getD 44 0 ^^^ w49
  let w51 := ks.getD 45 0 ^^^ w50
  ks ++ [w48, w49, w50, w51]

/-- The 60 words the `key_schedule_256_function!` macro writes: eight packed key
words, six rounds of eight words (with the extra h-function step in the middle),
and a final partial round of four words. -/
def ks256Words (origin : List Nat) : List Nat :=
  let init := (List.range 8).map (fun i =>
    four_u8_to_u32 (origin.getD (4*i) 0) (origin.getD (4*i+1) 0)
                   (origin.getD (4*i+2) 0) (origin.getD (4*i+3) 0))
  let ks := (List.range 6).foldl (fun ks i =>
    let w8 := ks.getD (8*i) 0 ^^^ round_g_function (ks.getD (8*i+7) 0) i
    let w9 := ks.getD (8*i+1) 0 ^^^ w8
    let w10 := ks.getD (8*i+2) 0 ^^^ w9
    let w11 := ks.getD (8*i+3) 0 ^^^ w10
    let w12 := ks.getD (8*i+4) 0 ^^^ round_h_function w11
    let w13 := ks.getD (8*i+5) 0 ^^^ w12
    let w14 := ks.getD (8*i+6) 0 ^^^ w13
    let w15 := ks.getD (8*i+7) 0 ^^^ w14
    ks ++ [w8, w9, w10, w11, w12, w13, w14, w15]) init
  let w56 := ks.getD 48 0 ^^^ round_g_function (ks.getD 55 0) 6
  let w57 := ks.getD 49 0 ^^^ w56
  let w58 := ks.getD 50 0 ^^^ w57
  let w59 := ks.getD 51 0 ^^^ w58
  ks ++ [w56, w57, w58, w59]

/-- The body of the loop in the `dkey_mixcolumn!` macro: the inverse-MixColumn
lookup (forward S-box through the four decryption T-tables, XORed). -/
def dkey_word (w : Nat) : Nat :=
  TD0 (SBOX (w >>> 24)) ^^^ TD1 (SBOX ((w >>> 16) &&& 255)) ^^^
  TD2 (SBOX ((w >>> 8) &&& 255)) ^^^ TD3 (SBOX (w &&& 255))

/-- The `dkey_mixcolumn!` macro of `aes_core.rs`: apply `dkey_word` to the words
at indices `4 .. length-4`, leaving the first and last four words untouched. -/
def dkey_mixcolumn (keys : List Nat) (length : Nat) : List Nat :=
  (List.range keys.length).map (fun i =>
    if 4 ≤ i ∧ i < length - 4 then dkey_word (keys.getD i 0) else keys.getD i 0)

/-- The `key_schedule_128_function!` macro: asserts the buffer length (a failed
assert panics before any write), then writes all 44 words. -/
def key_schedule_128_function (origin keys : List Nat) : List Nat × Option String :=
  if keys.length = N_SUBKEYS_128BIT then (ks128Words origin, none)
  else (keys, some "assertion failed")

/-- The `key_schedule_192_function!` macro. -/
def key_schedule_192_function (origin keys : List Nat) : List Nat × Option String :=
  if keys.length = N_SUBKEYS_192BIT then (ks192Words origin, none)
  else (keys, some "assertion failed")

/-- The `key_schedule_256_function!` macro. -/
def key_schedule_256_function (origin keys : List Nat) : List Nat × Option String :=
  if keys.length = N_SUBKEYS_256BIT then (ks256Words origin, none)
  else (keys, some "assertion failed")

/-- `key_schedule_encrypt_auto` of `aes_core.rs`: dispatch on the key length,
panicking with "Invalid key length." (before touching the buffer) otherwise. -/
def key_schedule_encrypt_auto (origin buffer : List Nat) : List Nat × Option String :=
  match origin.length with
  | 16 => key_schedule_128_function origin buffer
  | 24 => key_schedule_192_function origin buffer
  | 32 => key_schedule_256_function origin buffer
  | _ => (buffer, some "Invalid key length.")

/-- `key_schedule_encrypt128` of `aes_core.rs`: asserts the key length, then
runs the 128-bit schedule macro. -/
def key_schedule_encrypt128 (origin buffer : List Nat) : List Nat × Option String :=
  if origin.length = 16 then key_schedule_128_function origin buffer
  else (buffer, some "assertion failed")

/-- `key_schedule_encrypt192` of `aes_core.rs`. -/
def key_schedule_encrypt192 (origin buffer : List Nat) : List Nat × Option String :=
  if origin.length = 24 then key_schedule_192_function origin buffer
  else (buffer, some "assertion failed")

/-- `key_schedule_encrypt256` of `aes_core.rs`. -/
def key_schedule_encrypt256 (origin buffer : List Nat) : List Nat × Option String :=
  if origin.length = 32 then key_schedule_256_function origin buffer
  else (buffer, some "assertion failed")

/-- `key_schedule_decrypt_auto` of `aes_core.rs`: the encryption schedule
followed by `dkey_mixcolumn!`. -/
def key_schedule_decrypt_auto (origin buffer : List Nat) : List Nat × Option String :=
  match origin.length with
  | 16 =>
    match key_schedule_128_function origin buffer with
    | (keys, none) => (dkey_mixcolumn keys N_SUBKEYS_128BIT, none)
    | (keys, some e) => (keys, some e)
  | 24 =>
    match key_schedule_192_function origin buffer with
    | (keys, none) => (dkey_mixcolumn keys N_SUBKEYS_192BIT, none)
    | (keys, some e) => (keys, some e)
  | 32 =>
    match key_schedule_256_function origin buffer with
    | (keys, none) => (dkey_mixcolumn keys N_SUBKEYS_256BIT, none)
    | (keys, some e) => (keys, some e)
  | _ => (buffer, some "Invalid key length.")

/-- `key_schedule_decrypt128` of `aes_core.rs`. -/
def key_schedule_decrypt128 (origin buffer : List Nat) : List Nat × Option String :=
  if origin.length = 16 then
    match key_schedule_128_function origin buffer with
    | (keys, none) => (dkey_mixcolumn keys N_SUBKEYS_128BIT, none)
    | (keys, some e) => (keys, some e)
  else (buffer, some "assertion failed")

/-- `key_schedule_decrypt192` of `aes_core.rs`. -/
def key_schedule_decrypt192 (origin buffer : List Nat) : List Nat × Option String :=
  if origin.length = 24 then
    match key_schedule_192_function origin buffer with
    | (keys, none) => (dkey_mixcolumn keys N_SUBKEYS_192BIT, none)
    | (keys, some e) => (keys, some e)
  else (buffer, some "assertion failed")

/-- `key_schedule_decrypt256` of `aes_core.rs`. -/
def key_schedule_decrypt256 (origin buffer : List Nat) : List Nat × Option String :=
  if origin.length = 32 then
    match key_schedule_256_function origin buffer with
    | (keys, none) => (dkey_mixcolumn keys N_SUBKEYS_256BIT, none)
    | (keys, some e) => (keys, some e)
  else (buffer, some "assertion failed")

/-! ### Block transform engine (`aes_core.rs`)

The state is the quadruple of 32-bit words `(wa0, wa1, wa2, wa3)` the macros keep
in registers.  The `encryption_function!`/`decryption_function!` macros read all
sixteen input bytes into the state before writing any output byte, so the
in-place entry points compute the same pure function as the copying ones. -/

/-- One fused encryption round of `encryption_function!`: four T-table lookups
per word in the diagonal pattern `(i, i+1, i+2, i+3)`, XORed with four schedule
words. -/
def te_round (s : Nat × Nat × Nat × Nat) (k0 k1 k2 k3 : Nat) : Nat × Nat × Nat × Nat :=
  match s with
  | (a0, a1, a2, a3) =>
    (TE0 (a0 >>> 24) ^^^ TE1 ((a1 >>> 16) &&& 255) ^^^ TE2 ((a2 >>> 8) &&& 255) ^^^
       TE3 (a3 &&& 255) ^^^ k0,
     TE0 (a1 >>> 24) ^^^ TE1 ((a2 >>> 16) &&& 255) ^^^ TE2 ((a3 >>> 8) &&& 255) ^^^
       TE3 (a0 &&& 255) ^^^ k1,
     TE0 (a2 >>> 24) ^^^ TE1 ((a3 >>> 16) &&& 255) ^^^ TE2 ((a0 >>> 8) &&& 255) ^^^
       TE3 (a1 &&& 255) ^^^ k2,
     TE0 (a3 >>> 24) ^^^ TE1 ((a0 >>> 16) &&& 255) ^^^ TE2 ((a1 >>> 8) &&& 255) ^^^
       TE3 (a2 &&& 255) ^^^ k3)

/-- One fused decryption round of `decryption_function!`: diagonal pattern
`(i, i-1, i-2, i-3)` over the decryption T-tables. -/
def td_round (s : Nat × Nat × Nat × Nat) (k0 k1 k2 k3 : Nat) : Nat × Nat × Nat × Nat :=
  match s with
  | (a0, a1, a2, a3) =>
    (TD0 (a0 >>> 24) ^^^ TD1 ((a3 >>> 16) &&& 255) ^^^ TD2 ((a2 >>> 8) &&& 255) ^^^
       TD3 (a1 &&& 255) ^^^ k0,
     TD0 (a1 >>> 24) ^^^ TD1 ((a0 >>> 16) &&& 255) ^^^ TD2 ((a3 >>> 8) &&& 255) ^^^
       TD3 (a2 &&& 255) ^^^ k1,
     TD0 (a2 >>> 24) ^^^ TD1 ((a1 >>> 16) &&& 255) ^^^ TD2 ((a0 >>> 8) &&& 255) ^^^
       TD3 (a3 &&& 255) ^^^ k2,
     TD0 (a3 >>> 24) ^^^ TD1 ((a2 >>> 16) &&& 255) ^^^ TD2 ((a1 >>> 8) &&& 255) ^^^
       TD3 (a0 &&& 255) ^^^ k3)

/-- The computation of the `encryption_function!` macro after its asserts: initial
whitening, round 1, `inner_rounds - 1` further double rounds, and the final
S-box round written out byte by byte (`as u8` casts become `&&& 255`). -/
def encryption_core (input keys : List Nat) (inner_rounds keys_length : Nat) : List Nat :=
  let inb := fun i => input.getD i 0
  let k := fun i => keys.getD i 0
  let wa0 := four_u8_to_u32 (inb 0) (inb 1) (inb 2) (inb 3) ^^^ k 0
  let wa1 := four_u8_to_u32 (inb 4) (inb 5) (inb 6) (inb 7) ^^^ k 1
  let wa2 := four_u8_to_u32 (inb 8) (inb 9) (inb 10) (inb 11) ^^^ k 2
  let wa3 := four_u8_to_u32 (inb 12) (inb 13) (inb 14) (inb 15) ^^^ k 3
  let wb := te_round (wa0, wa1, wa2, wa3) (k 4) (k 5) (k 6) (k 7)
  let wb := (List.range' 1 (inner_rounds - 1)).foldl (fun wb i =>
    te_round (te_round wb (k (8*i)) (k (8*i+1)) (k (8*i+2)) (k (8*i+3)))
      (k (8*i+4)) (k (8*i+5)) (k (8*i+6)) (k (8*i+7))) wb
  match wb with
  | (wb0, wb1, wb2, wb3) =>
    [SBOX (wb0 >>> 24) ^^^ ((k (keys_length-4) >>> 24) &&& 255),
     SBOX ((wb1 >>> 16) &&& 255) ^^^ ((k (keys_length-4) >>> 16) &&& 255),
     SBOX ((wb2 >>> 8) &&& 255) ^^^ ((k (keys_length-4) >>> 8) &&& 255),
     SBOX (wb3 &&& 255) ^^^ (k (keys_length-4) &&& 255),
     SBOX (wb1 >>> 24) ^^^ ((k (keys_length-3) >>> 24) &&& 255),
     SBOX ((wb2 >>> 16) &&& 255) ^^^ ((k (keys_length-3) >>> 16) &&& 255),
     SBOX ((wb3 >>> 8) &&& 255) ^^^ ((k (keys_length-3) >>> 8) &&& 255),
     SBOX (wb0 &&& 255) ^^^ (k (keys_length-3) &&& 255),
     SBOX (wb2 >>> 24) ^^^ ((k (keys_length-2) >>> 24) &&& 255),
     SBOX ((wb3 >>> 16) &&& 255) ^^^ ((k (keys_length-2) >>> 16) &&& 255),
     SBOX ((wb0 >>> 8) &&& 255) ^^^ ((k (keys_length-2) >>> 8) &&& 255),
     SBOX (wb1 &&& 255) ^^^ (k (keys_length-2) &&& 255),
     SBOX (wb3 >>> 24) ^^^ ((k (keys_length-1) >>> 24) &&& 255),
     SBOX ((wb0 >>> 16) &&& 255) ^^^ ((k (keys_length-1) >>> 16) &&& 255),
     SBOX ((wb1 >>> 8) &&& 255) ^^^ ((k (keys_length-1) >>> 8) &&& 255),
     SBOX (wb2 &&& 255) ^^^ (k (keys_length-1) &&& 255)]

/-- The computation of the `decryption_function!` macro after its asserts:
whitening with the last four schedule words, rounds walking the schedule
backwards, and the final inverse-S-box round with schedule words 0..3. -/
def decryption_core (input keys : List Nat) (inner_rounds keys_length : Nat) : List Nat :=
  let inb := fun i => input.getD i 0
  let k := fun i => keys.getD i 0
  let wa0 := four_u8_to_u32 (inb 0) (inb 1) (inb 2) (inb 3) ^^^ k (keys_length-4)
  let wa1 := four_u8_to_u32 (inb 4) (inb 5) (inb 6) (inb 7) ^^^ k (keys_length-3)
  let wa2 := four_u8_to_u32 (inb 8) (inb 9) (inb 10) (inb 11) ^^^ k (keys_length-2)
  let wa3 := four_u8_to_u32 (inb 12) (inb 13) (inb 14) (inb 15) ^^^ k (keys_length-1)
  let wb := td_round (wa0, wa1, wa2, wa3)
    (k (keys_length-8)) (k (keys_length-7)) (k (keys_length-6)) (k (keys_length-5))
  let wb := (List.range' 1 (inner_rounds - 1)).foldl (fun wb i =>
    td_round (td_round wb
        (k (keys_length-4-8*i)) (k (keys_length-3-8*i)) (k (keys_length-2-8*i))
        (k (keys_length-1-8*i)))
      (k (keys_length-8-8*i)) (k (keys_length-7-8*i)) (k (keys_length-6-8*i))
      (k (keys_length-5-8*i))) wb
  match wb with
  | (wb0, wb1, wb2, wb3) =>
    [SINV (wb0 >>> 24) ^^^ ((k 0 >>> 24) &&& 255),
     SINV ((wb3 >>> 16) &&& 255) ^^^ ((k 0 >>> 16) &&& 255),
     SINV ((wb2 >>> 8) &&& 255) ^^^ ((k 0 >>> 8) &&& 255),
     SINV (wb1 &&& 255) ^^^ (k 0 &&& 255),
     SINV (wb1 >>> 24) ^^^ ((k 1 >>> 24) &&& 255),
     SINV ((wb0 >>> 16) &&& 255) ^^^ ((k 1 >>> 16) &&& 255),
     SINV ((wb3 >>> 8) &&& 255) ^^^ ((k 1 >>> 8) &&& 255),
     SINV (wb2 &&& 255) ^^^ (k 1 &&& 255),
     SINV (wb2 >>> 24) ^^^ ((k 2 >>> 24) &&& 255),
     SINV ((wb1 >>> 16) &&& 255) ^^^ ((k 2 >>> 16) &&& 255),
     SINV ((wb0 >>> 8) &&& 255) ^^^ ((k 2 >>> 8) &&& 255),
     SINV (wb3 &&& 255) ^^^ (k 2 &&& 255),
     SINV (wb3 >>> 24) ^^^ ((k 3 >>> 24) &&& 255),
     SINV ((wb2 >>> 16) &&& 255) ^^^ ((k 3 >>> 16) &&& 255),
     SINV ((wb1 >>> 8) &&& 255) ^^^ ((k 3 >>> 8) &&& 255),
     SINV (wb0 &&& 255) ^^^ (k 3 &&& 255)]

/-- `block_encrypt128` of `aes_core.rs`: the two asserts of the macro, then the
round pipeline with `inner_rounds = 5`.  The 16-byte output buffer is fully
overwritten on success, so it is not a parameter of the model. -/
def block_encrypt128 (input subkeys : List Nat) : Option (List Nat) :=
  if input.length = 16 ∧ subkeys.length = N_SUBKEYS_128BIT then
    some (encryption_core input subkeys 5 N_SUBKEYS_128BIT) else none

/-- `block_encrypt192` of `aes_core.rs` (`inner_rounds = 6`). -/
def block_encrypt192 (input subkeys : List Nat) : Option (List Nat) :=
  if input.length = 16 ∧ subkeys.length = N_SUBKEYS_192BIT then
    some (encryption_core input subkeys 6 N_SUBKEYS_192BIT) else none

/-- `block_encrypt256` of `aes_core.rs` (`inner_rounds = 7`). -/
def block_encrypt256 (input subkeys : List Nat) : Option (List Nat) :=
  if input.length = 16 ∧ subkeys.length = N_SUBKEYS_256BIT then
    some (encryption_core input subkeys 7 N_SUBKEYS_256BIT) else none

/-- `block_encrypt128_inplace` of `aes_core.rs`: the macro reads the whole block
before writing it, so aliasing input and output computes the same function. -/
def block_encrypt128_inplace (block subkeys : List Nat) : Option (List Nat) :=
  if block.length = 16 ∧ subkeys.length = N_SUBKEYS_128BIT then
    some (encryption_core block subkeys 5 N_SUBKEYS_128BIT) else none

/-- `block_encrypt192_inplace` of `aes_core.rs`. -/
def block_encrypt192_inplace (block subkeys : List Nat) : Option (List Nat) :=
  if block.length = 16 ∧ subkeys.length = N_SUBKEYS_192BIT then
    some (encryption_core block subkeys 6 N_SUBKEYS_192BIT) else none

/-- `block_encrypt256_inplace` of `aes_core.rs`. -/
def block_encrypt256_inplace (block subkeys : List Nat) : Option (List Nat) :=
  if block.length = 16 ∧ subkeys.length = N_SUBKEYS_256BIT then
    some (encryption_core block subkeys 7 N_SUBKEYS_256BIT) else none

/-- `block_decrypt128` of `aes_core.rs`. -/
def block_decrypt128 (input subkeys : List Nat) : Option (List Nat) :=
  if input.length = 16 ∧ subkeys.length = N_SUBKEYS_128BIT then
    some (decryption_core input subkeys 5 N_SUBKEYS_128BIT) else none

/-- `block_decrypt192` of `aes_core.rs`. -/
def block_decrypt192 (input subkeys : List Nat) : Option (List Nat) :=
  if input.length = 16 ∧ subkeys.length = N_SUBKEYS_192BIT then
    some (decryption_core input subkeys 6 N_SUBKEYS_192BIT) else none

/-- `block_decrypt256` of `aes_core.rs`. -/
def block_decrypt256 (input subkeys : List Nat) : Option (List Nat) :=
  if input.length = 16 ∧ subkeys.length = N_SUBKEYS_256BIT then
    some (decryption_core input subkeys 7 N_SUBKEYS_256BIT) else none

/-- `block_decrypt128_inplace` of `aes_core.rs`. -/
def block_decrypt128_inplace (block subkeys : List Nat) : Option (List Nat) :=
  if block.length = 16 ∧ subkeys.length = N_SUBKEYS_128BIT then
    some (decryption_core block subkeys 5 N_SUBKEYS_128BIT) else none

/-- `block_decrypt192_inplace` of `aes_core.rs`. -/
def block_decrypt192_inplace (block subkeys : List Nat) : Option (List Nat) :=
  if block.length = 16 ∧ subkeys.length = N_SUBKEYS_192BIT then
    some (decryption_core block subkeys 6 N_SUBKEYS_192BIT) else none

/-- `block_decrypt256_inplace` of `aes_core.rs`. -/
def block_decrypt256_inplace (block subkeys : List Nat) : Option (List Nat) :=
  if block.length = 16 ∧ subkeys.length = N_SUBKEYS_256BIT then
    some (decryption_core block subkeys 7 N_SUBKEYS_256BIT) else none

/-! ### Padding module (`padding_128bit.rs`)

Vectors are `List Nat`; `Vec::pop` on the empty vector yields `None`, and the
`unwrap` of `de_ansix923_pkcs7`/`de_zeros` panicking on it is modelled as a
`none` result. -/

/-- `pa_pkcs7` of `padding_128bit.rs`: append `r = 16 - (len & 0b1111)` bytes of
value `r as u8`. -/
def pa_pkcs7 (input_vec : List Nat) : List Nat :=
  let r := 16 - (input_vec.length &&& 15)
  input_vec ++ List.replicate r (r % 256)

/-- `pa_ansix923` of `padding_128bit.rs`: append `r` zero bytes with the last
set to `r as u8`. -/
def pa_ansix923 (input_vec : List Nat) : List Nat :=
  let r := 16 - (input_vec.length &&& 15)
  input_vec ++ (List.replicate r 0).set (r - 1) (r % 256)

/-- `pa_zeros` of `padding_128bit.rs`: append `r = 16 - (len & 0b1111)` zero
bytes (a full zero block when already aligned). -/
def pa_zeros (input_vec : List Nat) : List Nat :=
  let r := 16 - (input_vec.length &&& 15)
  input_vec ++ List.replicate r 0

/-- `pa_zeros_ifnotcomplete` of `padding_128bit.rs`: like `pa_zeros` but leaves
an already-aligned vector unchanged. -/
def pa_zeros_ifnotcomplete (input_vec : List Nat) : List Nat :=
  let r := 16 - (input_vec.length &&& 15)
  if r ≠ 16 then input_vec ++ List.replicate r 0 else input_vec

/-- `de_ansix923_pkcs7` of `padding_128bit.rs`: pop the final byte `r` (panic,
modelled as `none`, when empty), then pop `r - 1` further bytes (those pops
ignore emptiness, as `Vec::pop` returns an `Option` the loop discards). -/
def de_ansix923_pkcs7 (input_vec : List Nat) : Option (List Nat) :=
  match input_vec.getLast? with
  | none => none
  | some r => some (input_vec.dropLast.take (input_vec.dropLast.length - (r - 1)))

/-- The loop of `de_zeros`, walking the vector from its end: pop (panicking,
modelled as `none`, when empty), stop and push back at the first nonzero byte. -/
def deZerosRev : List Nat → Option (List Nat)
  | [] => none
  | x :: xs => if x ≠ 0 then some (x :: xs) else deZerosRev xs

/-- `de_zeros` of `padding_128bit.rs`. -/
def de_zeros (input_vec : List Nat) : Option (List Nat) :=
  (deZerosRev input_vec.reverse).map List.reverse

/-! ### Proof-side forms of the round structure

`mcw`/`imcw` are the MixColumns and inverse-MixColumns of one word given its
four bytes (most significant first), exactly the column combinations the
T-tables fuse; `ssq` is the fused SubBytes-and-ShiftRows on the four-word
state; `eChain`/`dChain` iterate the fused rounds. -/

/-- One encryption round applied to a quadruple key group. -/
def te_roundQ (s k : Nat × Nat × Nat × Nat) : Nat × Nat × Nat × Nat :=
  te_round s k.1 k.2.1 k.2.2.1 k.2.2.2

/-- One decryption round applied to a quadruple key group. -/
def td_roundQ (s k : Nat × Nat × Nat × Nat) : Nat × Nat × Nat × Nat :=
  td_round s k.1 k.2.1 k.2.2.1 k.2.2.2

/-- `n` encryption rounds with key groups `K 1, ..., K n`, `K 1` first. -/
def eChain (K : Nat → Nat × Nat × Nat × Nat) : Nat → Nat × Nat × Nat × Nat → Nat × Nat × Nat × Nat
  | 0, s => s
  | r+1, s => te_roundQ (eChain K r s) (K (r+1))

/-- `n` decryption rounds with key groups `D n, ..., D 1`, `D n` first. -/
def dChain (D : Nat → Nat × Nat × Nat × Nat) : Nat → Nat × Nat × Nat × Nat → Nat × Nat × Nat × Nat
  | 0, t => t
  | r+1, t => dChain D r (td_roundQ t (D (r+1)))

/-- Fused SubBytes-and-ShiftRows on the state, the byte selection of the final
encryption round. -/
def ssq (s : Nat × Nat × Nat × Nat) : Nat × Nat × Nat × Nat :=
  match s with
  | (a0, a1, a2, a3) =>
    (four_u8_to_u32 (SBOX (a0 >>> 24)) (SBOX ((a1 >>> 16) &&& 255))
       (SBOX ((a2 >>> 8) &&& 255)) (SBOX (a3 &&& 255)),
     four_u8_to_u32 (SBOX (a1 >>> 24)) (SBOX ((a2 >>> 16) &&& 255))
       (SBOX ((a3 >>> 8) &&& 255)) (SBOX (a0 &&& 255)),
     four_u8_to_u32 (SBOX (a2 >>> 24)) (SBOX ((a3 >>> 16) &&& 255))
       (SBOX ((a0 >>> 8) &&& 255)) (SBOX (a1 &&& 255)),
     four_u8_to_u32 (SBOX (a3 >>> 24)) (SBOX ((a0 >>> 16) &&& 255))
       (SBOX ((a1 >>> 8) &&& 255)) (SBOX (a2 &&& 255)))

/-- MixColumns of one word from its four bytes, most significant byte first. -/
def mcw (p q r s : Nat) : Nat :=
  four_u8_to_u32
    (gmul 2 p ^^^ gmul 3 q ^^^ r ^^^ s)
    (p ^^^ gmul 2 q ^^^ gmul 3 r ^^^ s)
    (p ^^^ q ^^^ gmul 2 r ^^^ gmul 3 s)
    (gmul 3 p ^^^ q ^^^ r ^^^ gmul 2 s)

/-- Inverse MixColumns of one word from its four bytes. -/
def imcw (p q r s : Nat) : Nat :=
  four_u8_to_u32
    (gmul 14 p ^^^ gmul 11 q ^^^ gmul 13 r ^^^ gmul 9 s)
    (gmul 9 p ^^^ gmul 14 q ^^^ gmul 11 r ^^^ gmul 13 s)
    (gmul 13 p ^^^ gmul 9 q ^^^ gmul 14 r ^^^ gmul 11 s)
    (gmul 11 p ^^^ gmul 13 q ^^^ gmul 9 r ^^^ gmul 14 s)

/-- Inverse MixColumns of a word. -/
def imcwOf (w : Nat) : Nat :=
  imcw (w >>> 24) ((w >>> 16) &&& 255) ((w >>> 8) &&& 255) (w &&& 255)

/-- Inverse MixColumns of each word of a key group. -/
def imcq (k : Nat × Nat × Nat × Nat) : Nat × Nat × Nat × Nat :=
  (imcwOf k.1, imcwOf k.2.1, imcwOf k.2.2.1, imcwOf k.2.2.2)

/-- All four state words fit in 32 bits. -/
def QB (s : Nat × Nat × Nat × Nat) : Prop :=
  s.1 < 2^32 ∧ s.2.1 < 2^32 ∧ s.2.2.1 < 2^32 ∧ s.2.2.2 < 2^32

/-- XOR on `Nat` is associative, for `ac_rfl`. -/
instance : Std.Associative (fun (x y : Nat) => x ^^^ y) := ⟨Nat.xor_assoc⟩

/-- XOR on `Nat` is commutative, for `ac_rfl`. -/
instance : Std.Commutative (fun (x y : Nat) => x ^^^ y) := ⟨Nat.xor_comm⟩

/-- Key group `r` of a schedule: words `4r .. 4r+3`. -/
def kgroup (keys : List Nat) (r : Nat) : Nat × Nat × Nat × Nat :=
  (keys.getD (4*r) 0, keys.getD (4*r+1) 0, keys.getD (4*r+2) 0, keys.getD (4*r+3) 0)

/-- The byte list the final encryption round writes, from the last round state
and the last four schedule words. -/
def enc_final (w0 w1 w2 w3 kA kB kC kD : Nat) : List Nat :=
  [SBOX (w0 >>> 24) ^^^ ((kA >>> 24) &&& 255),
   SBOX ((w1 >>> 16) &&& 255) ^^^ ((kA >>> 16) &&& 255),
   SBOX ((w2 >>> 8) &&& 255) ^^^ ((kA >>> 8) &&& 255),
   SBOX (w3 &&& 255) ^^^ (kA &&& 255),
   SBOX (w1 >>> 24) ^^^ ((kB >>> 24) &&& 255),
   SBOX ((w2 >>> 16) &&& 255) ^^^ ((kB >>> 16) &&& 255),
   SBOX ((w3 >>> 8) &&& 255) ^^^ ((kB >>> 8) &&& 255),
   SBOX (w0 &&& 255) ^^^ (kB &&& 255),
   SBOX (w2 >>> 24) ^^^ ((kC >>> 24) &&& 255),
   SBOX ((w3 >>> 16) &&& 255) ^^^ ((kC >>> 16) &&& 255),
   SBOX ((w0 >>> 8) &&& 255) ^^^ ((kC >>> 8) &&& 255),
   SBOX (w1 &&& 255) ^^^ (kC &&& 255),
   SBOX (w3 >>> 24) ^^^ ((kD >>> 24) &&& 255),
   SBOX ((w0 >>> 16) &&& 255) ^^^ ((kD >>> 16) &&& 255),
   SBOX ((w1 >>> 8) &&& 255) ^^^ ((kD >>> 8) &&& 255),
   SBOX (w2 &&& 255) ^^^ (kD &&& 255)]

/-- The byte list the final decryption round writes, from the last round state
and the first four schedule words. -/
def dec_final (w0 w1 w2 w3 k0 k1 k2 k3 : Nat) : List Nat :=
  [SINV (w0 >>> 24) ^^^ ((k0 >>> 24) &&& 255),
   SINV ((w3 >>> 16) &&& 255) ^^^ ((k0 >>> 16) &&& 255),
   SINV ((w2 >>> 8) &&& 255) ^^^ ((k0 >>> 8) &&& 255),
   SINV (w1 &&& 255) ^^^ (k0 &&& 255),
   SINV (w1 >>> 24) ^^^ ((k1 >>> 24) &&& 255),
   SINV ((w0 >>> 16) &&& 255) ^^^ ((k1 >>> 16) &&& 255),
   SINV ((w3 >>> 8) &&& 255) ^^^ ((k1 >>> 8) &&& 255),
   SINV (w2 &&& 255) ^^^ (k1 &&& 255),
   SINV (w2 >>> 24) ^^^ ((k2 >>> 24) &&& 255),
   SINV ((w1 >>> 16) &&& 255) ^^^ ((k2 >>> 16) &&& 255),
   SINV ((w0 >>> 8) &&& 255) ^^^ ((k2 >>> 8) &&& 255),
   SINV (w3 &&& 255) ^^^ (k2 &&& 255),
   SINV (w3 >>> 24) ^^^ ((k3 >>> 24) &&& 255),
   SINV ((w2 >>> 16) &&& 255) ^^^ ((k3 >>> 16) &&& 255),
   SINV ((w1 >>> 8) &&& 255) ^^^ ((k3 >>> 8) &&& 255),
   SINV (w0 &&& 255) ^^^ (k3 &&& 255)]

/-! ### Certification of the modelled tables against the GF(2^8) derivation -/

/-- Specialize a boolean check over `List.range n` to each `i < n`. -/
theorem forall_lt_of_all_range {n : Nat} {p : Nat → Bool}
    (h : (List.range n).all p = true) : ∀ i, i < n → p i = true := by
  intro i hi
  exact List.all_eq_true.mp h i (List.mem_range.mpr hi)

/-- The literal `sboxTable` is the table the spec derives: entry 0 is the affine
transform of 0, and every other entry is the affine transform of the GF(2^8)
multiplicative inverse (certified multiplicatively, avoiding inverse computation). -/
theorem sboxTable_spec : ∀ b, b < 256 →
    (if b = 0 then SBOX b = affine 0 else gmul b (affineInv (SBOX b)) = 1) ∧ SBOX b < 256 := by
  have h := forall_lt_of_all_range (n := 256)
    (p := fun b => ((if b == 0 then SBOX b == affine 0
                     else gmul b (affineInv (SBOX b)) == 1) && (SBOX b < 256 : Bool)))
    (by decide)
  intro b hb
  have hb2 := h b hb
  simp only [Bool.and_eq_true, beq_iff_eq, decide_eq_true_eq] at hb2
  rcases hb2 with ⟨h1, h2⟩
  refine ⟨?_, h2⟩
  by_cases hz : b = 0
  · simpa [hz] using h1
  · simpa [hz] using h1

/-- The literal `sinvTable` is the inverse permutation of `sboxTable`, with entries
below 256 (the spec's inverse S-box). -/
theorem sinvTable_spec : ∀ b, b < 256 → SINV (SBOX b) = b ∧ SBOX (SINV b) = b ∧ SINV b < 256 := by
  have h := forall_lt_of_all_range (n := 256)
    (p := fun b => ((SINV (SBOX b) == b) && (SBOX (SINV b) == b) && (SINV b < 256 : Bool)))
    (by decide)
  intro b hb
  have hb2 := h b hb
  simp only [Bool.and_eq_true, beq_iff_eq, decide_eq_true_eq] at hb2
  exact ⟨hb2.1.1, hb2.1.2, hb2.2⟩

/-- The literal `te0Table` is the forward S-box multiplied by column 0 of the
MixColumns matrix, as the spec derives it. -/
theorem TE0_spec : ∀ x, x < 256 →
    TE0 x = four_u8_to_u32 (gmul 2 (SBOX x)) (SBOX x) (SBOX x) (gmul 3 (SBOX x)) := by
  have h := forall_lt_of_all_range (n := 256)
    (p := fun x => TE0 x == four_u8_to_u32 (gmul 2 (SBOX x)) (SBOX x) (SBOX x) (gmul 3 (SBOX x)))
    (by decide)
  intro x hx
  exact beq_iff_eq.mp (h x hx)

/-- The literal `te1Table` is the forward S-box multiplied by column 1 of the
MixColumns matrix. -/
theorem TE1_spec : ∀ x, x < 256 →
    TE1 x = four_u8_to_u32 (gmul 3 (SBOX x)) (gmul 2 (SBOX x)) (SBOX x) (SBOX x) := by
  have h := forall_lt_of_all_range (n := 256)
    (p := fun x => TE1 x == four_u8_to_u32 (gmul 3 (SBOX x)) (gmul 2 (SBOX x)) (SBOX x) (SBOX x))
    (by decide)
  intro x hx
  exact beq_iff_eq.mp (h x hx)

/-- The literal `te2Table` is the forward S-box multiplied by column 2 of the
MixColumns matrix. -/
theorem TE2_spec : ∀ x, x < 256 →
    TE2 x = four_u8_to_u32 (SBOX x) (gmul 3 (SBOX x)) (gmul 2 (SBOX x)) (SBOX x) := by
  have h := forall_lt_of_all_range (n := 256)
    (p := fun x => TE2 x == four_u8_to_u32 (SBOX x) (gmul 3 (SBOX x)) (gmul 2 (SBOX x)) (SBOX x))
    (by decide)
  intro x hx
  exact beq_iff_eq.mp (h x hx)

/-- The literal `te3Table` is the forward S-box multiplied by column 3 of the
MixColumns matrix. -/
theorem TE3_spec : ∀ x, x < 256 →
    TE3 x = four_u8_to_u32 (SBOX x) (SBOX x) (gmul 3 (SBOX x)) (gmul 2 (SBOX x)) := by
  have h := forall_lt_of_all_range (n := 256)
    (p := fun x => TE3 x == four_u8_to_u32 (SBOX x) (SBOX x) (gmul 3 (SBOX x)) (gmul 2 (SBOX x)))
    (by decide)
  intro x hx
  exact beq_iff_eq.mp (h x hx)

/-- The literal `td0Table` is the inverse S-box multiplied by column 0 of the
inverse MixColumns matrix. -/
theorem TD0_spec : ∀ x, x < 256 →
    TD0 x = four_u8_to_u32 (gmul 14 (SINV x)) (gmul 9 (SINV x)) (gmul 13 (SINV x))
      (gmul 11 (SINV x)) := by
  have h := forall_lt_of_all_range (n := 256)
    (p := fun x => TD0 x == four_u8_to_u32 (gmul 14 (SINV x)) (gmul 9 (SINV x))
      (gmul 13 (SINV x)) (gmul 11 (SINV x)))
    (by decide)
  intro x hx
  exact beq_iff_eq.mp (h x hx)

/-- The literal `td1Table` is the inverse S-box multiplied by column 1 of the
inverse MixColumns matrix. -/
theorem TD1_spec : ∀ x, x < 256 →
    TD1 x = four_u8_to_u32 (gmul 11 (SINV x)) (gmul 14 (SINV x)) (gmul 9 (SINV x))
      (gmul 13 (SINV x)) := by
  have h := forall_lt_of_all_range (n := 256)
    (p := fun x => TD1 x == four_u8_to_u32 (gmul 11 (SINV x)) (gmul 14 (SINV x))
      (gmul 9 (SINV x)) (gmul 13 (SINV x)))
    (by decide)
  intro x hx
  exact beq_iff_eq.mp (h x hx)

/-- The literal `td2Table` is the inverse S-box multiplied by column 2 of the
inverse MixColumns matrix. -/
theorem TD2_spec : ∀ x, x < 256 →
    TD2 x = four_u8_to_u32 (gmul 13 (SINV x)) (gmul 11 (SINV x)) (gmul 14 (SINV x))
      (gmul 9 (SINV x)) := by
  have h := forall_lt_of_all_range (n := 256)
    (p := fun x => TD2 x == four_u8_to_u32 (gmul 13 (SINV x)) (gmul 11 (SINV x))
      (gmul 14 (SINV x)) (gmul 9 (SINV x)))
    (by decide)
  intro x hx
  exact beq_iff_eq.mp (h x hx)

/-- The literal `td3Table` is the inverse S-box multiplied by column 3 of the
inverse MixColumns matrix. -/
theorem TD3_spec : ∀ x, x < 256 →
    TD3 x = four_u8_to_u32 (gmul 9 (SINV x)) (gmul 13 (SINV x)) (gmul 11 (SINV x))
      (gmul 14 (SINV x)) := by
  have h := forall_lt_of_all_range (n := 256)
    (p := fun x => TD3 x == four_u8_to_u32 (gmul 9 (SINV x)) (gmul 13 (SINV x))
      (gmul 11 (SINV x)) (gmul 14 (SINV x)))
    (by decide)
  intro x hx
  exact beq_iff_eq.mp (h x hx)

/-- The round constants are the iterated GF(2^8) powers of x, starting at 1. -/
theorem rcTable_spec : ∀ i, i < 10 → RC i < 256 ∧ (i + 1 < 10 → RC (i + 1) = xtime (RC i)) := by
  decide

/-! ### Padding laws -/

/-- The `& 0b1111` of the padding module is reduction mod 16. -/
theorem and_15_eq_mod (x : Nat) : x &&& 15 = x % 16 := by
  have h := Nat.and_pow_two_sub_one_eq_mod x 4
  norm_num at h
  exact h

/-- C6: `pa_pkcs7` appends exactly N bytes of value N, with N = 16 - (n mod 16)
for unaligned input and N = 16 for aligned input, 1 ≤ N ≤ 16, and the result
length is a multiple of 16. -/
theorem c6_pa_pkcs7_appends_n_bytes_of_value_n (v : List Nat) :
    ∃ N, pa_pkcs7 v = v ++ List.replicate N N ∧
      (v.length % 16 ≠ 0 → N = 16 - v.length % 16) ∧
      (v.length % 16 = 0 → N = 16) ∧
      1 ≤ N ∧ N ≤ 16 ∧ (pa_pkcs7 v).length % 16 = 0 := by
  refine ⟨16 - v.length % 16, ?_, ?_, ?_, ?_, ?_, ?_⟩
  · have hlt : v.length % 16 < 16 := Nat.mod_lt _ (by omega)
    have hr : (16 - v.length % 16) % 256 = 16 - v.length % 16 :=
      Nat.mod_eq_of_lt (by omega)
    simp only [pa_pkcs7, and_15_eq_mod, hr]
  · intro _; rfl
  · intro h; omega
  · have : v.length % 16 < 16 := Nat.mod_lt _ (by omega)
    omega
  · omega
  · have hlt : v.length % 16 < 16 := Nat.mod_lt _ (by omega)
    simp only [pa_pkcs7, and_15_eq_mod, List.length_append, List.length_replicate]
    omega

/-- C10: every padding function only appends: the original vector is a prefix
of the result, and the length never decreases. -/
theorem c10_padding_only_appends (v : List Nat) :
    (∃ t, pa_pkcs7 v = v ++ t) ∧ (∃ t, pa_ansix923 v = v ++ t) ∧
    (∃ t, pa_zeros v = v ++ t) ∧ (∃ t, pa_zeros_ifnotcomplete v = v ++ t) ∧
    v.length ≤ (pa_pkcs7 v).length ∧ v.length ≤ (pa_ansix923 v).length ∧
    v.length ≤ (pa_zeros v).length ∧ v.length ≤ (pa_zeros_ifnotcomplete v).length := by
  refine ⟨⟨_, rfl⟩, ⟨_, rfl⟩, ⟨_, rfl⟩, ?_, ?_, ?_, ?_, ?_⟩
  · unfold pa_zeros_ifnotcomplete
    dsimp only
    split
    · exact ⟨_, rfl⟩
    · exact ⟨[], (List.append_nil v).symm⟩
  · simp [pa_pkcs7]
  · simp [pa_ansix923]
  · simp [pa_zeros]
  · unfold pa_zeros_ifnotcomplete
    dsimp only
    split
    · simp
    · simp

/-- The `de_zeros` loop on the reversed vector: it strips the leading zeros and
stops at the first nonzero byte, provided one exists. -/
theorem deZerosRev_spec (l : List Nat) (h : ∃ b ∈ l, b ≠ 0) :
    ∃ k rest, deZerosRev l = some rest ∧ l = List.replicate k 0 ++ rest ∧
      ∃ b, rest.head? = some b ∧ b ≠ 0 := by
  induction l with
  | nil => simp at h
  | cons x xs ih =>
    by_cases hx : x = 0
    · subst hx
      have hxs : ∃ b ∈ xs, b ≠ 0 := by
        rcases h with ⟨b, hb, hbne⟩
        rcases List.mem_cons.mp hb with h0 | h1
        · omega
        · exact ⟨b, h1, hbne⟩
      rcases ih hxs with ⟨k, rest, h1, h2, h3⟩
      refine ⟨k + 1, rest, ?_, ?_, h3⟩
      · simpa [deZerosRev] using h1
      · simp [List.replicate_succ, h2]
    · exact ⟨0, x :: xs, by simp [deZerosRev, hx], by simp, x, rfl, hx⟩

/-- The `de_zeros` loop returns `none` (the `unwrap` panics) on an all-zero list. -/
theorem deZerosRev_none (l : List Nat) (h : ∀ b ∈ l, b = 0) : deZerosRev l = none := by
  induction l with
  | nil => rfl
  | cons x xs ih =>
    have hx : x = 0 := h x (List.mem_cons_self x xs)
    have := ih (fun b hb => h b (List.mem_cons_of_mem x hb))
    simp [deZerosRev, hx, this]

/-- C8: on any vector containing a nonzero byte, `de_zeros` removes every
trailing zero byte (including zeros of the genuine data), leaving the longest
prefix that ends in a nonzero byte. -/
theorem c8_de_zeros_removes_all_trailing_zeros (v : List Nat)
    (h : ∃ b ∈ v, b ≠ 0) :
    ∃ w k b, de_zeros v = some w ∧ v = w ++ List.replicate k 0 ∧
      w.getLast? = some b ∧ b ≠ 0 := by
  have hrev : ∃ b ∈ v.reverse, b ≠ 0 := by
    rcases h with ⟨b, hb, hbne⟩
    exact ⟨b, List.mem_reverse.mpr hb, hbne⟩
  rcases deZerosRev_spec v.reverse hrev with ⟨k, rest, h1, h2, b, hb1, hb2⟩
  refine ⟨rest.reverse, k, b, ?_, ?_, ?_, hb2⟩
  · simp [de_zeros, h1]
  · have := congrArg List.reverse h2
    simpa [List.reverse_append] using this
  · simpa using congrArg List.head? (List.reverse_reverse rest) ▸ (by simpa using hb1 : rest.head? = some b)

/-- C8 witness. -/
theorem c8_witness :
    (∃ b ∈ [7, 0, 0], b ≠ 0) ∧
    ∃ w k b, de_zeros [7, 0, 0] = some w ∧ ([7, 0, 0] : List Nat) = w ++ List.replicate k 0 ∧
      w.getLast? = some b ∧ b ≠ 0 :=
  ⟨⟨7, by decide, by decide⟩, c8_de_zeros_removes_all_trailing_zeros [7, 0, 0] ⟨7, by decide, by decide⟩⟩

/-- C9: the depadding edge cases: `de_ansix923_pkcs7` panics (returns `none`)
exactly on the empty vector, `de_zeros` panics on the empty or all-zero vector,
and under the claimed preconditions both are total. -/
theorem c9_depadding_panic_edge_cases :
    de_ansix923_pkcs7 ([] : List Nat) = none ∧
    de_zeros ([] : List Nat) = none ∧
    (∀ v : List Nat, (∀ b ∈ v, b = 0) → de_zeros v = none) ∧
    (∀ v : List Nat, v ≠ [] → ∃ w, de_ansix923_pkcs7 v = some w) ∧
    (∀ v : List Nat, (∃ b ∈ v, b ≠ 0) → ∃ w, de_zeros v = some w) := by
  refine ⟨rfl, rfl, ?_, ?_, ?_⟩
  · intro v hv
    have : ∀ b ∈ v.reverse, b = 0 := fun b hb => hv b (List.mem_reverse.mp hb)
    simp [de_zeros, deZerosRev_none v.reverse this]
  · intro v hv
    obtain ⟨r, hr⟩ := Option.isSome_iff_exists.mp (List.getLast?_isSome.mpr hv)
    refine ⟨v.dropLast.take (v.dropLast.length - (r - 1)), ?_⟩
    unfold de_ansix923_pkcs7
    rw [hr]
  · intro v hv
    rcases c8_de_zeros_removes_all_trailing_zeros v hv with ⟨w, _, _, h1, _⟩
    exact ⟨w, h1⟩

/-- C9 witness. -/
theorem c9_witness :
    de_zeros [0, 0] = none ∧ (∃ w, de_ansix923_pkcs7 [5, 2] = some w) ∧
    (∃ w, de_zeros [7, 0] = some w) :=
  ⟨c9_depadding_panic_edge_cases.2.2.1 [0, 0] (by decide),
   c9_depadding_panic_edge_cases.2.2.2.1 [5, 2] (by decide),
   c9_depadding_panic_edge_cases.2.2.2.2 [7, 0] ⟨7, by decide, by decide⟩⟩

/-! ### Key-schedule length and failure laws -/

/-- A fold whose step extends the list by `c` elements extends it by `c * n`
over `List.range n`. -/
theorem foldl_range_length_add (c : Nat) (step : List Nat → Nat → List Nat)
    (hstep : ∀ ks i, (step ks i).length = ks.length + c) :
    ∀ n l, ((List.range n).foldl step l).length = l.length + c * n := by
  intro n
  induction n with
  | zero => simp
  | succ n ih =>
    intro l
    rw [List.range_succ, List.foldl_append]
    simp only [List.foldl_cons, List.foldl_nil, hstep, ih]
    ring

/-- The 128-bit expansion always produces 44 words. -/
theorem ks128Words_length (origin : List Nat) : (ks128Words origin).length = 44 := by
  unfold ks128Words
  rw [foldl_range_length_add 4 _ (fun ks i => by simp)]
  simp

/-- The 192-bit expansion always produces 52 words. -/
theorem ks192Words_length (origin : List Nat) : (ks192Words origin).length = 52 := by
  unfold ks192Words
  simp only [List.length_append]
  rw [foldl_range_length_add 6 _ (fun ks i => by simp)]
  simp

/-- The 256-bit expansion always produces 60 words. -/
theorem ks256Words_length (origin : List Nat) : (ks256Words origin).length = 60 := by
  unfold ks256Words
  simp only [List.length_append]
  rw [foldl_range_length_add 8 _ (fun ks i => by simp)]
  simp

/-- `dkey_mixcolumn` keeps the word count. -/
theorem dkey_mixcolumn_length (keys : List Nat) (n : Nat) :
    (dkey_mixcolumn keys n).length = keys.length := by
  simp [dkey_mixcolumn]

/-- C4: keys whose length is not 16, 24 or 32 make both auto schedulers fail
with "Invalid key length." and leave the buffer untouched. -/
theorem c4_auto_rejects_invalid_key_lengths (origin buffer : List Nat)
    (h : origin.length ≠ 16 ∧ origin.length ≠ 24 ∧ origin.length ≠ 32) :
    key_schedule_encrypt_auto origin buffer = (buffer, some "Invalid key length.") ∧
    key_schedule_decrypt_auto origin buffer = (buffer, some "Invalid key length.") := by
  obtain ⟨h16, h24, h32⟩ := h
  constructor
  · unfold key_schedule_encrypt_auto
    split
    · omega
    · omega
    · omega
    · rfl
  · unfold key_schedule_decrypt_auto
    split
    · omega
    · omega
    · omega
    · rfl

/-- C4 witness: a 15-byte key is rejected. -/
theorem c4_witness :
    ((List.replicate 15 0 : List Nat).length ≠ 16 ∧ (List.replicate 15 0 : List Nat).length ≠ 24 ∧
      (List.replicate 15 0 : List Nat).length ≠ 32) ∧
    key_schedule_encrypt_auto (List.replicate 15 0) [1, 2] = ([1, 2], some "Invalid key length.") ∧
    key_schedule_decrypt_auto (List.replicate 15 0) [1, 2] = ([1, 2], some "Invalid key length.") :=
  ⟨by decide, c4_auto_rejects_invalid_key_lengths (List.replicate 15 0) [1, 2] (by decide)⟩

/-- Failure of every 128-bit schedule entry point on a buffer-length mismatch. -/
theorem ks128_fail (origin buffer : List Nat) (h : origin.length = 16)
    (hb : buffer.length ≠ 44) :
    key_schedule_128_function origin buffer = (buffer, some "assertion failed") ∧
    key_schedule_encrypt128 origin buffer = (buffer, some "assertion failed") ∧
    key_schedule_decrypt128 origin buffer = (buffer, some "assertion failed") ∧
    key_schedule_encrypt_auto origin buffer = (buffer, some "assertion failed") ∧
    key_schedule_decrypt_auto origin buffer = (buffer, some "assertion failed") := by
  have hf : key_schedule_128_function origin buffer = (buffer, some "assertion failed") := by
    simp [key_schedule_128_function, N_SUBKEYS_128BIT, hb]
  refine ⟨hf, ?_, ?_, ?_, ?_⟩
  · simp [key_schedule_encrypt128, h, hf]
  · simp [key_schedule_decrypt128, h, hf]
  · simp [key_schedule_encrypt_auto, h, hf]
  · simp [key_schedule_decrypt_auto, h, hf]

/-- Failure of every 192-bit schedule entry point on a buffer-length mismatch. -/
theorem ks192_fail (origin buffer : List Nat) (h : origin.length = 24)
    (hb : buffer.length ≠ 52) :
    key_schedule_192_function origin buffer = (buffer, some "assertion failed") ∧
    key_schedule_encrypt192 origin buffer = (buffer, some "assertion failed") ∧
    key_schedule_decrypt192 origin buffer = (buffer, some "assertion failed") ∧
    key_schedule_encrypt_auto origin buffer = (buffer, some "assertion failed") ∧
    key_schedule_decrypt_auto origin buffer = (buffer, some "assertion failed") := by
  have hf : key_schedule_192_function origin buffer = (buffer, some "assertion failed") := by
    simp [key_schedule_192_function, N_SUBKEYS_192BIT, hb]
  refine ⟨hf, ?_, ?_, ?_, ?_⟩
  · simp [key_schedule_encrypt192, h, hf]
  · simp [key_schedule_decrypt192, h, hf]
  · simp [key_schedule_encrypt_auto, h, hf]
  · simp [key_schedule_decrypt_auto, h, hf]

/-- Failure of every 256-bit schedule entry point on a buffer-length mismatch. -/
theorem ks256_fail (origin buffer : List Nat) (h : origin.length = 32)
    (hb : buffer.length ≠ 60) :
    key_schedule_256_function origin buffer = (buffer, some "assertion failed") ∧
    key_schedule_encrypt256 origin buffer = (buffer, some "assertion failed") ∧
    key_schedule_decrypt256 origin buffer = (buffer, some "assertion failed") ∧
    key_schedule_encrypt_auto origin buffer = (buffer, some "assertion failed") ∧
    key_schedule_decrypt_auto origin buffer = (buffer, some "assertion failed") := by
  have hf : key_schedule_256_function origin buffer = (buffer, some "assertion failed") := by
    simp [key_schedule_256_function, N_SUBKEYS_256BIT, hb]
  refine ⟨hf, ?_, ?_, ?_, ?_⟩
  · simp [key_schedule_encrypt256, h, hf]
  · simp [key_schedule_decrypt256, h, hf]
  · simp [key_schedule_encrypt_auto, h, hf]
  · simp [key_schedule_decrypt_auto, h, hf]

/-- C5: for a key of valid length and a schedule buffer of the wrong word count,
every key-schedule entry point fails at the initial assert, before any
computation, and returns the buffer unchanged. -/
theorem c5_key_schedule_fail_fast_no_partial_writes (origin buffer : List Nat) :
    (origin.length = 16 → buffer.length ≠ 44 →
      key_schedule_128_function origin buffer = (buffer, some "assertion failed") ∧
      key_schedule_encrypt128 origin buffer = (buffer, some "assertion failed") ∧
      key_schedule_decrypt128 origin buffer = (buffer, some "assertion failed") ∧
      key_schedule_encrypt_auto origin buffer = (buffer, some "assertion failed") ∧
      key_schedule_decrypt_auto origin buffer = (buffer, some "assertion failed")) ∧
    (origin.length = 24 → buffer.length ≠ 52 →
      key_schedule_192_function origin buffer = (buffer, some "assertion failed") ∧
      key_schedule_encrypt192 origin buffer = (buffer, some "assertion failed") ∧
      key_schedule_decrypt192 origin buffer = (buffer, some "assertion failed") ∧
      key_schedule_encrypt_auto origin buffer = (buffer, some "assertion failed") ∧
      key_schedule_decrypt_auto origin buffer = (buffer, some "assertion failed")) ∧
    (origin.length = 32 → buffer.length ≠ 60 →
      key_schedule_256_function origin buffer = (buffer, some "assertion failed") ∧
      key_schedule_encrypt256 origin buffer = (buffer, some "assertion failed") ∧
      key_schedule_decrypt256 origin buffer = (buffer, some "assertion failed") ∧
      key_schedule_encrypt_auto origin buffer = (buffer, some "assertion failed") ∧
      key_schedule_decrypt_auto origin buffer = (buffer, some "assertion failed")) :=
  ⟨ks128_fail origin buffer, ks192_fail origin buffer, ks256_fail origin buffer⟩

/-- C5 witness: a 16-byte key with a 43-word buffer is rejected with the buffer
unchanged. -/
theorem c5_witness :
    ((List.replicate 16 0 : List Nat).length = 16 ∧
      (List.replicate 43 7 : List Nat).length ≠ 44) ∧
    key_schedule_encrypt128 (List.replicate 16 0) (List.replicate 43 7) =
      (List.replicate 43 7, some "assertion failed") :=
  ⟨by decide,
   ((c5_key_schedule_fail_fast_no_partial_writes (List.replicate 16 0)
      (List.replicate 43 7)).1 (by decide) (by decide)).2.1⟩


/-- C7 counterexample: the spec formula 4 x (L/4 + 6 + 4) evaluates to 56 at
L = 16, but the schedule actually produced for a 16-byte key has 44 words. -/
theorem c7_counterexample :
    ((key_schedule_encrypt128 (List.replicate 16 0) (List.replicate 44 0)).1).length = 44 ∧
    4 * (16 / 4 + 6 + 4) = 56 ∧
    ((key_schedule_encrypt128 (List.replicate 16 0) (List.replicate 44 0)).1).length ≠
      4 * (16 / 4 + 6 + 4) := by
  have hs : key_schedule_encrypt128 (List.replicate 16 0) (List.replicate 44 0) =
      (ks128Words (List.replicate 16 0), none) := by
    simp [key_schedule_encrypt128, key_schedule_128_function, N_SUBKEYS_128BIT]
  rw [hs]
  simp [ks128Words_length]

/-- C7 (amended): for every valid key length L the produced schedule has exactly
4 x (L/4 + 6 + 1) words, which is 44 / 52 / 60, and any other buffer length is
rejected as a contract violation. -/
theorem c7_schedule_length_invariant (origin buffer : List Nat) :
    (origin.length = 16 → buffer.length = 44 →
      (key_schedule_encrypt128 origin buffer).2 = none ∧
      (key_schedule_decrypt128 origin buffer).2 = none ∧
      (key_schedule_encrypt128 origin buffer).1.length = 4 * (origin.length / 4 + 6 + 1) ∧
      (key_schedule_decrypt128 origin buffer).1.length = 4 * (origin.length / 4 + 6 + 1) ∧
      4 * (origin.length / 4 + 6 + 1) = 44) ∧
    (origin.length = 16 → buffer.length ≠ 44 →
      (key_schedule_encrypt128 origin buffer).2 ≠ none ∧
      (key_schedule_decrypt128 origin buffer).2 ≠ none) ∧
    (origin.length = 24 → buffer.length = 52 →
      (key_schedule_encrypt192 origin buffer).2 = none ∧
      (key_schedule_decrypt192 origin buffer).2 = none ∧
      (key_schedule_encrypt192 origin buffer).1.length = 4 * (origin.length / 4 + 6 + 1) ∧
      (key_schedule_decrypt192 origin buffer).1.length = 4 * (origin.length / 4 + 6 + 1) ∧
      4 * (origin.length / 4 + 6 + 1) = 52) ∧
    (origin.length = 24 → buffer.length ≠ 52 →
      (key_schedule_encrypt192 origin buffer).2 ≠ none ∧
      (key_schedule_decrypt192 origin buffer).2 ≠ none) ∧
    (origin.length = 32 → buffer.length = 60 →
      (key_schedule_encrypt256 origin buffer).2 = none ∧
      (key_schedule_decrypt256 origin buffer).2 = none ∧
      (key_schedule_encrypt256 origin buffer).1.length = 4 * (origin.length / 4 + 6 + 1) ∧
      (key_schedule_decrypt256 origin buffer).1.length = 4 * (origin.length / 4 + 6 + 1) ∧
      4 * (origin.length / 4 + 6 + 1) = 60) ∧
    (origin.length = 32 → buffer.length ≠ 60 →
      (key_schedule_encrypt256 origin buffer).2 ≠ none ∧
      (key_schedule_decrypt256 origin buffer).2 ≠ none) := by
  refine ⟨fun h hb => ?_, fun h hb => ?_, fun h hb => ?_, fun h hb => ?_,
    fun h hb => ?_, fun h hb => ?_⟩
  · simp [key_schedule_encrypt128, key_schedule_decrypt128, key_schedule_128_function,
      N_SUBKEYS_128BIT, h, hb, ks128Words_length, dkey_mixcolumn_length]
  · have := ks128_fail origin buffer h hb
    simp [this.2.1, this.2.2.1]
  · simp [key_schedule_encrypt192, key_schedule_decrypt192, key_schedule_192_function,
      N_SUBKEYS_192BIT, h, hb, ks192Words_length, dkey_mixcolumn_length]
  · have := ks192_fail origin buffer h hb
    simp [this.2.1, this.2.2.1]
  · simp [key_schedule_encrypt256, key_schedule_decrypt256, key_schedule_256_function,
      N_SUBKEYS_256BIT, h, hb, ks256Words_length, dkey_mixcolumn_length]
  · have := ks256_fail origin buffer h hb
    simp [this.2.1, this.2.2.1]

/-- C7 witness. -/
theorem c7_witness :
    ((List.replicate 16 0 : List Nat).length = 16 ∧
      (List.replicate 44 0 : List Nat).length = 44) ∧
    (key_schedule_encrypt128 (List.replicate 16 0) (List.replicate 44 0)).1.length =
      4 * ((List.replicate 16 0 : List Nat).length / 4 + 6 + 1) :=
  ⟨by decide,
   ((c7_schedule_length_invariant (List.replicate 16 0) (List.replicate 44 0)).1
      (by decide) (by decide)).2.2.1⟩

/-! ### Known-answer and schedule-relation laws -/

/-- C2: the FIPS-197 known-answer test for the 128-bit key: encrypting block
3243F6A8885A308D313198A2E0370734 under the schedule of key
2B7E151628AED2A6ABF7158809CF4F3C yields 3925841D02DC09FBDC118597196A0B32. -/
theorem c2_fips197_known_answer_128 :
    block_encrypt128
      [0x32, 0x43, 0xF6, 0xA8, 0x88, 0x5A, 0x30, 0x8D,
       0x31, 0x31, 0x98, 0xA2, 0xE0, 0x37, 0x07, 0x34]
      ((key_schedule_encrypt128
        [0x2B, 0x7E, 0x15, 0x16, 0x28, 0xAE, 0xD2, 0xA6,
         0xAB, 0xF7, 0x15, 0x88, 0x09, 0xCF, 0x4F, 0x3C]
        (List.replicate 44 0)).1)
    = some [0x39, 0x25, 0x84, 0x1D, 0x02, 0xDC, 0x09, 0xFB,
            0xDC, 0x11, 0x85, 0x97, 0x19, 0x6A, 0x0B, 0x32] := by
  decide

/-- `getD` of a map over `List.range`. -/
theorem getD_map_range (f : Nat → Nat) {n i : Nat} (h : i < n) :
    ((List.range n).map f).getD i 0 = f i := by
  rw [List.getD_eq_getElem?_getD, List.getElem?_map, List.getElem?_range h]
  rfl

/-- Entrywise description of `dkey_mixcolumn`. -/
theorem dkey_mixcolumn_getD (keys : List Nat) (n i : Nat) (hi : i < keys.length) :
    (dkey_mixcolumn keys n).getD i 0 =
      if 4 ≤ i ∧ i < n - 4 then dkey_word (keys.getD i 0) else keys.getD i 0 := by
  unfold dkey_mixcolumn
  rw [getD_map_range _ hi]

/-- C3 counterexample: for the 16-byte key 62636363 00000000 00000000 00000000,
encryption-schedule word 4 (an interior word) is 0, which the inverse-MixColumn
lookup fixes, so the decryption schedule agrees with the encryption schedule at
an interior index, contradicting the claim that every interior word differs. -/
theorem c3_counterexample :
    ([0x62, 0x63, 0x63, 0x63, 0, 0, 0, 0, 0, 0, 0, 0, 0, 0, 0, 0] : List Nat).length = 16 ∧
    4 < 44 - 4 ∧
    ((key_schedule_encrypt128 [0x62, 0x63, 0x63, 0x63, 0, 0, 0, 0, 0, 0, 0, 0, 0, 0, 0, 0]
      (List.replicate 44 0)).1).getD 4 0 =
    ((key_schedule_decrypt128 [0x62, 0x63, 0x63, 0x63, 0, 0, 0, 0, 0, 0, 0, 0, 0, 0, 0, 0]
      (List.replicate 44 0)).1).getD 4 0 := by
  decide

/-- C3 (amended): the decryption schedule of a key agrees with the encryption
schedule on the first four and last four words, and each interior word is the
inverse-MixColumn lookup (forward S-box through the four decryption T-tables)
of the corresponding encryption-schedule word -- which may coincide with it,
e.g. when the word is 0. -/
theorem c3_schedules_agree_outside_interior (origin buffer : List Nat) :
    (origin.length = 16 → buffer.length = 44 → ∀ i, i < 44 →
      ((key_schedule_decrypt128 origin buffer).1).getD i 0 =
        if 4 ≤ i ∧ i < 44 - 4 then
          dkey_word (((key_schedule_encrypt128 origin buffer).1).getD i 0)
        else ((key_schedule_encrypt128 origin buffer).1).getD i 0) ∧
    (origin.length = 24 → buffer.length = 52 → ∀ i, i < 52 →
      ((key_schedule_decrypt192 origin buffer).1).getD i 0 =
        if 4 ≤ i ∧ i < 52 - 4 then
          dkey_word (((key_schedule_encrypt192 origin buffer).1).getD i 0)
        else ((key_schedule_encrypt192 origin buffer).1).getD i 0) ∧
    (origin.length = 32 → buffer.length = 60 → ∀ i, i < 60 →
      ((key_schedule_decrypt256 origin buffer).1).getD i 0 =
        if 4 ≤ i ∧ i < 60 - 4 then
          dkey_word (((key_schedule_encrypt256 origin buffer).1).getD i 0)
        else ((key_schedule_encrypt256 origin buffer).1).getD i 0) := by
  refine ⟨fun h hb i hi => ?_, fun h hb i hi => ?_, fun h hb i hi => ?_⟩
  · have henc : (key_schedule_encrypt128 origin buffer).1 = ks128Words origin := by
      rw [key_schedule_encrypt128, if_pos h, key_schedule_128_function, if_pos (show _ = N_SUBKEYS_128BIT from hb)]
    have hdec : (key_schedule_decrypt128 origin buffer).1 =
        dkey_mixcolumn (ks128Words origin) N_SUBKEYS_128BIT := by
      rw [key_schedule_decrypt128, if_pos h, key_schedule_128_function, if_pos (show _ = N_SUBKEYS_128BIT from hb)]
    rw [henc, hdec, dkey_mixcolumn_getD _ _ _ (by rw [ks128Words_length]; omega)]
    rfl
  · have henc : (key_schedule_encrypt192 origin buffer).1 = ks192Words origin := by
      rw [key_schedule_encrypt192, if_pos h, key_schedule_192_function, if_pos (show _ = N_SUBKEYS_192BIT from hb)]
    have hdec : (key_schedule_decrypt192 origin buffer).1 =
        dkey_mixcolumn (ks192Words origin) N_SUBKEYS_192BIT := by
      rw [key_schedule_decrypt192, if_pos h, key_schedule_192_function, if_pos (show _ = N_SUBKEYS_192BIT from hb)]
    rw [henc, hdec, dkey_mixcolumn_getD _ _ _ (by rw [ks192Words_length]; omega)]
    rfl
  · have henc : (key_schedule_encrypt256 origin buffer).1 = ks256Words origin := by
      rw [key_schedule_encrypt256, if_pos h, key_schedule_256_function, if_pos (show _ = N_SUBKEYS_256BIT from hb)]
    have hdec : (key_schedule_decrypt256 origin buffer).1 =
        dkey_mixcolumn (ks256Words origin) N_SUBKEYS_256BIT := by
      rw [key_schedule_decrypt256, if_pos h, key_schedule_256_function, if_pos (show _ = N_SUBKEYS_256BIT from hb)]
    rw [henc, hdec, dkey_mixcolumn_getD _ _ _ (by rw [ks256Words_length]; omega)]
    rfl

/-- C3 witness. -/
theorem c3_witness :
    ((List.replicate 16 1 : List Nat).length = 16 ∧
      (List.replicate 44 0 : List Nat).length = 44 ∧ (0 : Nat) < 44) ∧
    ((key_schedule_decrypt128 (List.replicate 16 1) (List.replicate 44 0)).1).getD 0 0 =
      if 4 ≤ 0 ∧ 0 < 44 - 4 then
        dkey_word (((key_schedule_encrypt128 (List.replicate 16 1)
          (List.replicate 44 0)).1).getD 0 0)
      else ((key_schedule_encrypt128 (List.replicate 16 1) (List.replicate 44 0)).1).getD 0 0 :=
  ⟨by decide,
   (c3_schedules_agree_outside_interior (List.replicate 16 1) (List.replicate 44 0)).1
     (by decide) (by decide) 0 (by decide)⟩

/-! ### Bit-level laws of packing and extraction -/

/-- Shifting left distributes over XOR. -/
theorem shiftLeft_xor_distrib (a b n : Nat) : (a ^^^ b) <<< n = (a <<< n) ^^^ (b <<< n) := by
  apply Nat.eq_of_testBit_eq
  intro i
  simp only [Nat.testBit_shiftLeft, Nat.testBit_xor]
  by_cases h : n ≤ i <;> simp [h]

/-- Shifting right distributes over XOR. -/
theorem shiftRight_xor_distrib (a b n : Nat) : (a ^^^ b) >>> n = (a >>> n) ^^^ (b >>> n) := by
  apply Nat.eq_of_testBit_eq
  intro i
  simp [Nat.testBit_shiftRight, Nat.testBit_xor]

/-- The byte mask of the source is reduction mod 256. -/
theorem and255_eq_mod (x : Nat) : x &&& 255 = x % 256 := by
  have h := Nat.and_pow_two_sub_one_eq_mod x 8
  norm_num at h
  exact h

/-- XOR of naturals is left-commutative. -/
theorem xor_left_comm (a b c : Nat) : a ^^^ (b ^^^ c) = b ^^^ (a ^^^ c) := by
  rw [← Nat.xor_assoc, Nat.xor_comm a b, Nat.xor_assoc]

/-- Packing XORs componentwise. -/
theorem four_u8_to_u32_xor (a b c d e f g h : Nat) :
    four_u8_to_u32 a b c d ^^^ four_u8_to_u32 e f g h =
      four_u8_to_u32 (a ^^^ e) (b ^^^ f) (c ^^^ g) (d ^^^ h) := by
  unfold four_u8_to_u32
  rw [shiftLeft_xor_distrib, shiftLeft_xor_distrib, shiftLeft_xor_distrib]
  simp only [Nat.xor_assoc, Nat.xor_comm, xor_left_comm]

/-- Bits at index 8 and above of a byte are clear. -/
theorem testBit_of_byte {a : Nat} (ha : a < 256) {i : Nat} (hi : 8 ≤ i) :
    a.testBit i = false := by
  apply Nat.testBit_lt_two_pow
  calc a < 256 := ha
    _ = 2 ^ 8 := by norm_num
    _ ≤ 2 ^ i := Nat.pow_le_pow_right (by omega) hi

/-- Byte 3 (most significant) of a packed word. -/
theorem pack4_byte3 {a b c d : Nat} (hb : b < 256) (hc : c < 256) (hd : d < 256) :
    four_u8_to_u32 a b c d >>> 24 = a := by
  apply Nat.eq_of_testBit_eq
  intro i
  simp only [four_u8_to_u32, Nat.testBit_shiftRight, Nat.testBit_xor, Nat.testBit_shiftLeft]
  rw [decide_eq_true (show 24 + i ≥ 24 by omega), decide_eq_true (show 24 + i ≥ 16 by omega),
    decide_eq_true (show 24 + i ≥ 8 by omega)]
  have h1 : 24 + i - 24 = i := by omega
  have h2 : 24 + i - 16 = 8 + i := by omega
  have h3 : 24 + i - 8 = 16 + i := by omega
  rw [h1, h2, h3, testBit_of_byte hb (by omega), testBit_of_byte hc (by omega),
    testBit_of_byte hd (by omega)]
  simp

/-- Byte 2 of a packed word. -/
theorem pack4_byte2 {a b c d : Nat} (hb : b < 256) (hc : c < 256) (hd : d < 256) :
    (four_u8_to_u32 a b c d >>> 16) &&& 255 = b := by
  rw [and255_eq_mod]
  have h256 : (256 : Nat) = 2 ^ 8 := by norm_num
  rw [h256]
  apply Nat.eq_of_testBit_eq
  intro i
  simp only [four_u8_to_u32, Nat.testBit_mod_two_pow, Nat.testBit_shiftRight, Nat.testBit_xor,
    Nat.testBit_shiftLeft]
  by_cases hi : i < 8
  · rw [decide_eq_true hi, decide_eq_false (show ¬(16 + i ≥ 24) by omega),
      decide_eq_true (show 16 + i ≥ 16 by omega), decide_eq_true (show 16 + i ≥ 8 by omega)]
    have h2 : 16 + i - 16 = i := by omega
    have h3 : 16 + i - 8 = 8 + i := by omega
    rw [h2, h3, testBit_of_byte hc (by omega), testBit_of_byte hd (by omega)]
    simp
  · rw [decide_eq_false hi]
    have hxi : Nat.testBit b i = false := testBit_of_byte hb (by omega)
    simp [hxi]

/-- Byte 1 of a packed word. -/
theorem pack4_byte1 {a b c d : Nat} (hb : b < 256) (hc : c < 256) (hd : d < 256) :
    (four_u8_to_u32 a b c d >>> 8) &&& 255 = c := by
  rw [and255_eq_mod]
  have h256 : (256 : Nat) = 2 ^ 8 := by norm_num
  rw [h256]
  apply Nat.eq_of_testBit_eq
  intro i
  simp only [four_u8_to_u32, Nat.testBit_mod_two_pow, Nat.testBit_shiftRight, Nat.testBit_xor,
    Nat.testBit_shiftLeft]
  by_cases hi : i < 8
  · rw [decide_eq_true hi, decide_eq_false (show ¬(8 + i ≥ 24) by omega),
      decide_eq_false (show ¬(8 + i ≥ 16) by omega), decide_eq_true (show 8 + i ≥ 8 by omega)]
    have h3 : 8 + i - 8 = i := by omega
    rw [h3, testBit_of_byte hd (by omega)]
    simp
  · rw [decide_eq_false hi]
    have hxi : Nat.testBit c i = false := testBit_of_byte hc (by omega)
    simp [hxi]

/-- Byte 0 (least significant) of a packed word. -/
theorem pack4_byte0 {a b c d : Nat} (hb : b < 256) (hc : c < 256) (hd : d < 256) :
    four_u8_to_u32 a b c d &&& 255 = d := by
  rw [and255_eq_mod]
  have h256 : (256 : Nat) = 2 ^ 8 := by norm_num
  rw [h256]
  apply Nat.eq_of_testBit_eq
  intro i
  simp only [four_u8_to_u32, Nat.testBit_mod_two_pow, Nat.testBit_xor, Nat.testBit_shiftLeft]
  by_cases hi : i < 8
  · rw [decide_eq_true hi, decide_eq_false (show ¬(i ≥ 24) by omega),
      decide_eq_false (show ¬(i ≥ 16) by omega), decide_eq_false (show ¬(i ≥ 8) by omega)]
    simp
  · rw [decide_eq_false hi]
    have hxi : Nat.testBit d i = false := testBit_of_byte hd (by omega)
    simp [hxi]

/-- Repacking the four extracted bytes of a 32-bit word gives the word back. -/
theorem pack4_unpack {w : Nat} (hw : w < 2^32) :
    four_u8_to_u32 (w >>> 24) ((w >>> 16) &&& 255) ((w >>> 8) &&& 255) (w &&& 255) = w := by
  rw [and255_eq_mod, and255_eq_mod, and255_eq_mod]
  have h256 : (256 : Nat) = 2 ^ 8 := by norm_num
  rw [h256]
  apply Nat.eq_of_testBit_eq
  intro i
  simp only [four_u8_to_u32, Nat.testBit_xor, Nat.testBit_shiftLeft, Nat.testBit_mod_two_pow,
    Nat.testBit_shiftRight]
  by_cases h24 : i ≥ 24
  · rw [decide_eq_true h24, decide_eq_false (show ¬(i - 16 < 8) by omega),
      decide_eq_false (show ¬(i - 8 < 8) by omega), decide_eq_false (show ¬(i < 8) by omega)]
    by_cases h32 : i < 32
    · rw [show 24 + (i - 24) = i by omega]
      simp [decide_eq_true (show i ≥ 16 by omega), decide_eq_true (show i ≥ 8 by omega)]
    · have hwi : w.testBit i = false := by
        apply Nat.testBit_lt_two_pow
        calc w < 2^32 := hw
          _ ≤ 2^i := Nat.pow_le_pow_right (by omega) (by omega)
      rw [show 24 + (i - 24) = i by omega]
      simp [hwi]
  · by_cases h16 : i ≥ 16
    · rw [decide_eq_false h24, decide_eq_true h16, decide_eq_true (show i ≥ 8 by omega),
        decide_eq_true (show i - 16 < 8 by omega), decide_eq_false (show ¬(i - 8 < 8) by omega),
        decide_eq_false (show ¬(i < 8) by omega)]
      rw [show 16 + (i - 16) = i by omega]
      simp
    · by_cases h8 : i ≥ 8
      · rw [decide_eq_false h24, decide_eq_false h16, decide_eq_true h8,
          decide_eq_true (show i - 8 < 8 by omega), decide_eq_false (show ¬(i < 8) by omega)]
        rw [show 8 + (i - 8) = i by omega]
        simp
      · rw [decide_eq_false h24, decide_eq_false h16, decide_eq_false h8,
          decide_eq_true (show i < 8 by omega)]
        simp

/-- A packed word of four bytes fits in 32 bits. -/
theorem pack4_lt {a b c d : Nat} (ha : a < 256) (hb : b < 256) (hc : c < 256) (hd : d < 256) :
    four_u8_to_u32 a b c d < 2^32 := by
  unfold four_u8_to_u32
  have p24 : (2 : Nat)^24 = 16777216 := by norm_num
  have p16 : (2 : Nat)^16 = 65536 := by norm_num
  have p8 : (2 : Nat)^8 = 256 := by norm_num
  have p32 : (2 : Nat)^32 = 4294967296 := by norm_num
  have e1 : a <<< 24 < 2^32 := by rw [Nat.shiftLeft_eq, p24, p32]; omega
  have e2 : b <<< 16 < 2^32 := by rw [Nat.shiftLeft_eq, p16, p32]; omega
  have e3 : c <<< 8 < 2^32 := by rw [Nat.shiftLeft_eq, p8, p32]; omega
  have e4 : d < 2^32 := by rw [p32]; omega
  exact Nat.xor_lt_two_pow (Nat.xor_lt_two_pow (Nat.xor_lt_two_pow e1 e2) e3) e4

/-- The top byte of a 32-bit word is below 256. -/
theorem shift24_lt {w : Nat} (hw : w < 2^32) : w >>> 24 < 256 := by
  rw [Nat.shiftRight_eq_div_pow]
  have p24 : (2 : Nat)^24 = 16777216 := by norm_num
  have p32 : (2 : Nat)^32 = 4294967296 := by norm_num
  rw [p24]
  rw [p32] at hw
  omega

/-- A masked byte is below 256. -/
theorem and255_lt (x : Nat) : x &&& 255 < 256 := by
  rw [and255_eq_mod]
  omega

/-- XOR of two bytes is a byte. -/
theorem xor_byte_lt {a b : Nat} (ha : a < 256) (hb : b < 256) : a ^^^ b < 256 := by
  have p8 : (2 : Nat)^8 = 256 := by norm_num
  have h1 : a < 2^8 := by rw [p8]; omega
  have h2 : b < 2^8 := by rw [p8]; omega
  have h := Nat.xor_lt_two_pow h1 h2
  rw [p8] at h
  exact h

/-- Top-byte extraction distributes over XOR. -/
theorem shift24_xor (x y : Nat) : (x ^^^ y) >>> 24 = (x >>> 24) ^^^ (y >>> 24) :=
  shiftRight_xor_distrib x y 24

/-- Masked-byte extraction distributes over XOR. -/
theorem shift_and_xor (x y n : Nat) :
    ((x ^^^ y) >>> n) &&& 255 = ((x >>> n) &&& 255) ^^^ ((y >>> n) &&& 255) := by
  rw [shiftRight_xor_distrib, Nat.and_xor_distrib_right]

/-- Mask-extraction distributes over XOR. -/
theorem and255_xor (x y : Nat) : (x ^^^ y) &&& 255 = (x &&& 255) ^^^ (y &&& 255) :=
  Nat.and_xor_distrib_right

/-! ### GF(2^8) linearity and bounds -/

/-- `xtime` always returns a byte. -/
theorem xtime_lt (x : Nat) : xtime x < 256 := by
  unfold xtime
  apply xor_byte_lt (and255_lt _)
  split <;> omega

/-- `xtime` is linear over XOR. -/
theorem xtime_linear (a b : Nat) : xtime (a ^^^ b) = xtime a ^^^ xtime b := by
  unfold xtime
  have h2 : 2 * (a ^^^ b) = 2 * a ^^^ 2 * b := by
    have h := shiftLeft_xor_distrib a b 1
    simpa [Nat.shiftLeft_eq, Nat.pow_one, Nat.mul_comm] using h
  rw [h2, Nat.and_xor_distrib_right, Nat.testBit_xor]
  cases ha : a.testBit 7 <;> cases hb : b.testBit 7 <;>
    simp [Nat.xor_assoc, Nat.xor_comm, xor_left_comm, Nat.xor_cancel_left]

/-- The shift-and-add product is linear over XOR in its running factor. -/
theorem gmulGo_linear (fuel : Nat) : ∀ a x y : Nat,
    gmulGo fuel a (x ^^^ y) = gmulGo fuel a x ^^^ gmulGo fuel a y := by
  induction fuel with
  | zero => intro a x y; simp [gmulGo]
  | succ n ih =>
    intro a x y
    simp only [gmulGo]
    rw [xtime_linear, ih]
    by_cases h : a % 2 = 1 <;> simp [h, Nat.xor_assoc, Nat.xor_comm, xor_left_comm]

/-- The GF(2^8) product is linear over XOR in its second factor. -/
theorem gmul_linear (a x y : Nat) : gmul a (x ^^^ y) = gmul a x ^^^ gmul a y :=
  gmulGo_linear 8 a x y

/-- The shift-and-add product of a byte is a byte. -/
theorem gmulGo_lt (fuel : Nat) : ∀ (a : Nat) {b : Nat}, b < 256 → gmulGo fuel a b < 256 := by
  induction fuel with
  | zero => intro a b _; simp [gmulGo]
  | succ n ih =>
    intro a b hb
    simp only [gmulGo]
    apply xor_byte_lt ?_ (ih _ (xtime_lt b))
    split <;> omega

/-- The GF(2^8) product of a byte is a byte. -/
theorem gmul_lt (a : Nat) {b : Nat} (hb : b < 256) : gmul a b < 256 :=
  gmulGo_lt 8 a hb

/-- Any lookup in a table of values below a positive bound stays below it. -/
theorem table_getD_lt {t : List Nat} {bound : Nat}
    (hall : t.all (fun v => decide (v < bound)) = true) (hbd : 0 < bound) (x : Nat) :
    t.getD x 0 < bound := by
  rcases h : t[x]? with _ | v
  · simp [List.getD_eq_getElem?_getD, h, hbd]
  · have hv : v ∈ t := List.getElem?_mem h
    have := List.all_eq_true.mp hall v hv
    simp [List.getD_eq_getElem?_getD, h]
    exact of_decide_eq_true this

/-- Every `SBOX` lookup is a byte. -/
theorem SBOX_lt (x : Nat) : SBOX x < 256 :=
  table_getD_lt (by decide) (by omega) x

/-- Every `SINV` lookup is a byte. -/
theorem SINV_lt (x : Nat) : SINV x < 256 :=
  table_getD_lt (by decide) (by omega) x

/-- Every `TE0` lookup fits in 32 bits. -/
theorem TE0_lt (x : Nat) : TE0 x < 2^32 :=
  table_getD_lt (by decide) (by norm_num) x

/-- Every `TE1` lookup fits in 32 bits. -/
theorem TE1_lt (x : Nat) : TE1 x < 2^32 :=
  table_getD_lt (by decide) (by norm_num) x

/-- Every `TE2` lookup fits in 32 bits. -/
theorem TE2_lt (x : Nat) : TE2 x < 2^32 :=
  table_getD_lt (by decide) (by norm_num) x

/-- Every `TE3` lookup fits in 32 bits. -/
theorem TE3_lt (x : Nat) : TE3 x < 2^32 :=
  table_getD_lt (by decide) (by norm_num) x

/-- Every `TD0` lookup fits in 32 bits. -/
theorem TD0_lt (x : Nat) : TD0 x < 2^32 :=
  table_getD_lt (by decide) (by norm_num) x

/-- Every `TD1` lookup fits in 32 bits. -/
theorem TD1_lt (x : Nat) : TD1 x < 2^32 :=
  table_getD_lt (by decide) (by norm_num) x

/-- Every `TD2` lookup fits in 32 bits. -/
theorem TD2_lt (x : Nat) : TD2 x < 2^32 :=
  table_getD_lt (by decide) (by norm_num) x

/-- Every `TD3` lookup fits in 32 bits. -/
theorem TD3_lt (x : Nat) : TD3 x < 2^32 :=
  table_getD_lt (by decide) (by norm_num) x

/-- Every `RC` lookup is a byte. -/
theorem RC_lt (i : Nat) : RC i < 256 :=
  table_getD_lt (by decide) (by omega) i

/-! ### Inverse MixColumns inverts MixColumns -/

/-- The four GF(2^8) column identities behind `InvMixColumns ∘ MixColumns = id`:
the diagonal combination is the identity and the three off-diagonal
combinations vanish. -/
theorem inv_mix_identities : ∀ x, x < 256 →
    (gmul 14 (gmul 2 x) ^^^ gmul 11 x ^^^ gmul 13 x ^^^ gmul 9 (gmul 3 x) = x) ∧
    (gmul 14 (gmul 3 x) ^^^ gmul 11 (gmul 2 x) ^^^ gmul 13 x ^^^ gmul 9 x = 0) ∧
    (gmul 14 x ^^^ gmul 11 (gmul 3 x) ^^^ gmul 13 (gmul 2 x) ^^^ gmul 9 x = 0) ∧
    (gmul 14 x ^^^ gmul 11 x ^^^ gmul 13 (gmul 3 x) ^^^ gmul 9 (gmul 2 x) = 0) := by
  have h := forall_lt_of_all_range (n := 256)
    (p := fun x =>
      ((gmul 14 (gmul 2 x) ^^^ gmul 11 x ^^^ gmul 13 x ^^^ gmul 9 (gmul 3 x)) == x) &&
      ((gmul 14 (gmul 3 x) ^^^ gmul 11 (gmul 2 x) ^^^ gmul 13 x ^^^ gmul 9 x) == 0) &&
      ((gmul 14 x ^^^ gmul 11 (gmul 3 x) ^^^ gmul 13 (gmul 2 x) ^^^ gmul 9 x) == 0) &&
      ((gmul 14 x ^^^ gmul 11 x ^^^ gmul 13 (gmul 3 x) ^^^ gmul 9 (gmul 2 x)) == 0))
    (by decide)
  intro x hx
  have hb := h x hx
  simp only [Bool.and_eq_true, beq_iff_eq] at hb
  exact ⟨hb.1.1.1, hb.1.1.2, hb.1.2, hb.2⟩

/-- `imcw` applied to the four bytes of `mcw p q r s` recovers the packed word. -/
theorem imcw_mcw {p q r s : Nat} (hp : p < 256) (hq : q < 256) (hr : r < 256) (hs : s < 256) :
    imcw (gmul 2 p ^^^ gmul 3 q ^^^ r ^^^ s) (p ^^^ gmul 2 q ^^^ gmul 3 r ^^^ s)
      (p ^^^ q ^^^ gmul 2 r ^^^ gmul 3 s) (gmul 3 p ^^^ q ^^^ r ^^^ gmul 2 s)
    = four_u8_to_u32 p q r s := by
  obtain ⟨iAp, iBp, iCp, iDp⟩ := inv_mix_identities p hp
  obtain ⟨iAq, iBq, iCq, iDq⟩ := inv_mix_identities q hq
  obtain ⟨iAr, iBr, iCr, iDr⟩ := inv_mix_identities r hr
  obtain ⟨iAs, iBs, iCs, iDs⟩ := inv_mix_identities s hs
  unfold imcw
  have h3 : gmul 14 (gmul 2 p ^^^ gmul 3 q ^^^ r ^^^ s) ^^^
      gmul 11 (p ^^^ gmul 2 q ^^^ gmul 3 r ^^^ s) ^^^
      gmul 13 (p ^^^ q ^^^ gmul 2 r ^^^ gmul 3 s) ^^^
      gmul 9 (gmul 3 p ^^^ q ^^^ r ^^^ gmul 2 s) = p := by
    simp only [gmul_linear]
    have e : gmul 14 (gmul 2 p) ^^^ gmul 14 (gmul 3 q) ^^^ gmul 14 r ^^^ gmul 14 s ^^^
        (gmul 11 p ^^^ gmul 11 (gmul 2 q) ^^^ gmul 11 (gmul 3 r) ^^^ gmul 11 s) ^^^
        (gmul 13 p ^^^ gmul 13 q ^^^ gmul 13 (gmul 2 r) ^^^ gmul 13 (gmul 3 s)) ^^^
        (gmul 9 (gmul 3 p) ^^^ gmul 9 q ^^^ gmul 9 r ^^^ gmul 9 (gmul 2 s)) =
        (gmul 14 (gmul 2 p) ^^^ gmul 11 p ^^^ gmul 13 p ^^^ gmul 9 (gmul 3 p)) ^^^
        (gmul 14 (gmul 3 q) ^^^ gmul 11 (gmul 2 q) ^^^ gmul 13 q ^^^ gmul 9 q) ^^^
        (gmul 14 r ^^^ gmul 11 (gmul 3 r) ^^^ gmul 13 (gmul 2 r) ^^^ gmul 9 r) ^^^
        (gmul 14 s ^^^ gmul 11 s ^^^ gmul 13 (gmul 3 s) ^^^ gmul 9 (gmul 2 s)) := by
      ac_rfl
    rw [e, iAp, iBq, iCr, iDs]
    simp
  have h2 : gmul 9 (gmul 2 p ^^^ gmul 3 q ^^^ r ^^^ s) ^^^
      gmul 14 (p ^^^ gmul 2 q ^^^ gmul 3 r ^^^ s) ^^^
      gmul 11 (p ^^^ q ^^^ gmul 2 r ^^^ gmul 3 s) ^^^
      gmul 13 (gmul 3 p ^^^ q ^^^ r ^^^ gmul 2 s) = q := by
    simp only [gmul_linear]
    have e : gmul 9 (gmul 2 p) ^^^ gmul 9 (gmul 3 q) ^^^ gmul 9 r ^^^ gmul 9 s ^^^
        (gmul 14 p ^^^ gmul 14 (gmul 2 q) ^^^ gmul 14 (gmul 3 r) ^^^ gmul 14 s) ^^^
        (gmul 11 p ^^^ gmul 11 q ^^^ gmul 11 (gmul 2 r) ^^^ gmul 11 (gmul 3 s)) ^^^
        (gmul 13 (gmul 3 p) ^^^ gmul 13 q ^^^ gmul 13 r ^^^ gmul 13 (gmul 2 s)) =
        (gmul 14 p ^^^ gmul 11 p ^^^ gmul 13 (gmul 3 p) ^^^ gmul 9 (gmul 2 p)) ^^^
        (gmul 14 (gmul 2 q) ^^^ gmul 11 q ^^^ gmul 13 q ^^^ gmul 9 (gmul 3 q)) ^^^
        (gmul 14 (gmul 3 r) ^^^ gmul 11 (gmul 2 r) ^^^ gmul 13 r ^^^ gmul 9 r) ^^^
        (gmul 14 s ^^^ gmul 11 (gmul 3 s) ^^^ gmul 13 (gmul 2 s) ^^^ gmul 9 s) := by
      ac_rfl
    rw [e, iDp, iAq, iBr, iCs]
    simp
  have h1 : gmul 13 (gmul 2 p ^^^ gmul 3 q ^^^ r ^^^ s) ^^^
      gmul 9 (p ^^^ gmul 2 q ^^^ gmul 3 r ^^^ s) ^^^
      gmul 14 (p ^^^ q ^^^ gmul 2 r ^^^ gmul 3 s) ^^^
      gmul 11 (gmul 3 p ^^^ q ^^^ r ^^^ gmul 2 s) = r := by
    simp only [gmul_linear]
    have e : gmul 13 (gmul 2 p) ^^^ gmul 13 (gmul 3 q) ^^^ gmul 13 r ^^^ gmul 13 s ^^^
        (gmul 9 p ^^^ gmul 9 (gmul 2 q) ^^^ gmul 9 (gmul 3 r) ^^^ gmul 9 s) ^^^
        (gmul 14 p ^^^ gmul 14 q ^^^ gmul 14 (gmul 2 r) ^^^ gmul 14 (gmul 3 s)) ^^^
        (gmul 11 (gmul 3 p) ^^^ gmul 11 q ^^^ gmul 11 r ^^^ gmul 11 (gmul 2 s)) =
        (gmul 14 p ^^^ gmul 11 (gmul 3 p) ^^^ gmul 13 (gmul 2 p) ^^^ gmul 9 p) ^^^
        (gmul 14 q ^^^ gmul 11 q ^^^ gmul 13 (gmul 3 q) ^^^ gmul 9 (gmul 2 q)) ^^^
        (gmul 14 (gmul 2 r) ^^^ gmul 11 r ^^^ gmul 13 r ^^^ gmul 9 (gmul 3 r)) ^^^
        (gmul 14 (gmul 3 s) ^^^ gmul 11 (gmul 2 s) ^^^ gmul 13 s ^^^ gmul 9 s) := by
      ac_rfl
    rw [e, iCp, iDq, iAr, iBs]
    simp
  have h0 : gmul 11 (gmul 2 p ^^^ gmul 3 q ^^^ r ^^^ s) ^^^
      gmul 13 (p ^^^ gmul 2 q ^^^ gmul 3 r ^^^ s) ^^^
      gmul 9 (p ^^^ q ^^^ gmul 2 r ^^^ gmul 3 s) ^^^
      gmul 14 (gmul 3 p ^^^ q ^^^ r ^^^ gmul 2 s) = s := by
    simp only [gmul_linear]
    have e : gmul 11 (gmul 2 p) ^^^ gmul 11 (gmul 3 q) ^^^ gmul 11 r ^^^ gmul 11 s ^^^
        (gmul 13 p ^^^ gmul 13 (gmul 2 q) ^^^ gmul 13 (gmul 3 r) ^^^ gmul 13 s) ^^^
        (gmul 9 p ^^^ gmul 9 q ^^^ gmul 9 (gmul 2 r) ^^^ gmul 9 (gmul 3 s)) ^^^
        (gmul 14 (gmul 3 p) ^^^ gmul 14 q ^^^ gmul 14 r ^^^ gmul 14 (gmul 2 s)) =
        (gmul 14 (gmul 3 p) ^^^ gmul 11 (gmul 2 p) ^^^ gmul 13 p ^^^ gmul 9 p) ^^^
        (gmul 14 q ^^^ gmul 11 (gmul 3 q) ^^^ gmul 13 (gmul 2 q) ^^^ gmul 9 q) ^^^
        (gmul 14 r ^^^ gmul 11 r ^^^ gmul 13 (gmul 3 r) ^^^ gmul 9 (gmul 2 r)) ^^^
        (gmul 14 (gmul 2 s) ^^^ gmul 11 s ^^^ gmul 13 s ^^^ gmul 9 (gmul 3 s)) := by
      ac_rfl
    rw [e, iBp, iCq, iDr, iAs]
    simp
  rw [h3, h2, h1, h0]

/-! ### One decryption round undoes one encryption round -/

/-- The inverse S-box undoes the S-box. -/
theorem sinv_sbox {b : Nat} (hb : b < 256) : SINV (SBOX b) = b :=
  (sinvTable_spec b hb).1

/-- 32-bit XOR stays below 2^32. -/
theorem xor32 {a b : Nat} (ha : a < 2^32) (hb : b < 2^32) : a ^^^ b < 2^32 :=
  Nat.xor_lt_two_pow ha hb

/-- The XOR of four encryption-table lookups is MixColumns of the S-boxed bytes. -/
theorem te_word_eq {a b c d : Nat} (ha : a < 256) (hb : b < 256) (hc : c < 256) (hd : d < 256) :
    TE0 a ^^^ TE1 b ^^^ TE2 c ^^^ TE3 d = mcw (SBOX a) (SBOX b) (SBOX c) (SBOX d) := by
  rw [TE0_spec a ha, TE1_spec b hb, TE2_spec c hc, TE3_spec d hd,
    four_u8_to_u32_xor, four_u8_to_u32_xor, four_u8_to_u32_xor]
  rfl

/-- The XOR of the four decryption-table lookups at the S-boxed bytes of a word
is the inverse MixColumns of the word; this is the body of `dkey_mixcolumn!`. -/
theorem td_word_sbox {w : Nat} (hw : w < 2^32) :
    TD0 (SBOX (w >>> 24)) ^^^ TD1 (SBOX ((w >>> 16) &&& 255)) ^^^
      TD2 (SBOX ((w >>> 8) &&& 255)) ^^^ TD3 (SBOX (w &&& 255)) = imcwOf w := by
  rw [TD0_spec _ (SBOX_lt _), TD1_spec _ (SBOX_lt _), TD2_spec _ (SBOX_lt _),
    TD3_spec _ (SBOX_lt _), sinv_sbox (shift24_lt hw), sinv_sbox (and255_lt _),
    sinv_sbox (and255_lt _), sinv_sbox (and255_lt _),
    four_u8_to_u32_xor, four_u8_to_u32_xor, four_u8_to_u32_xor]
  rfl

/-- `dkey_word` is inverse MixColumns. -/
theorem dkey_word_eq {w : Nat} (hw : w < 2^32) : dkey_word w = imcwOf w := by
  unfold dkey_word
  exact td_word_sbox hw

/-- Four-fold linear combination splits over XOR. -/
theorem comb4_xor (w x y z a b c d e f g h : Nat) :
    (gmul w a ^^^ gmul x b ^^^ gmul y c ^^^ gmul z d) ^^^
      (gmul w e ^^^ gmul x f ^^^ gmul y g ^^^ gmul z h) =
    gmul w (a ^^^ e) ^^^ gmul x (b ^^^ f) ^^^ gmul y (c ^^^ g) ^^^ gmul z (d ^^^ h) := by
  simp only [gmul_linear]
  ac_rfl

/-- `imcw` XORs componentwise. -/
theorem imcw_xor (a b c d e f g h : Nat) :
    imcw a b c d ^^^ imcw e f g h = imcw (a ^^^ e) (b ^^^ f) (c ^^^ g) (d ^^^ h) := by
  unfold imcw
  rw [four_u8_to_u32_xor, comb4_xor, comb4_xor, comb4_xor, comb4_xor]

/-- Inverse MixColumns of a word distributes over XOR. -/
theorem imcwOf_xor (x y : Nat) : imcwOf (x ^^^ y) = imcwOf x ^^^ imcwOf y := by
  unfold imcwOf
  rw [shift24_xor, shift_and_xor, shift_and_xor, and255_xor, ← imcw_xor]

/-- Inverse MixColumns of a MixColumns word recovers the packed bytes. -/
theorem imcwOf_mcw {p q r s : Nat} (hp : p < 256) (hq : q < 256) (hr : r < 256) (hs : s < 256) :
    imcwOf (mcw p q r s) = four_u8_to_u32 p q r s := by
  have b3 : (gmul 2 p ^^^ gmul 3 q ^^^ r ^^^ s) < 256 :=
    xor_byte_lt (xor_byte_lt (xor_byte_lt (gmul_lt 2 hp) (gmul_lt 3 hq)) hr) hs
  have b2 : (p ^^^ gmul 2 q ^^^ gmul 3 r ^^^ s) < 256 :=
    xor_byte_lt (xor_byte_lt (xor_byte_lt hp (gmul_lt 2 hq)) (gmul_lt 3 hr)) hs
  have b1 : (p ^^^ q ^^^ gmul 2 r ^^^ gmul 3 s) < 256 :=
    xor_byte_lt (xor_byte_lt (xor_byte_lt hp hq) (gmul_lt 2 hr)) (gmul_lt 3 hs)
  have b0 : (gmul 3 p ^^^ q ^^^ r ^^^ gmul 2 s) < 256 :=
    xor_byte_lt (xor_byte_lt (xor_byte_lt (gmul_lt 3 hp) hq) hr) (gmul_lt 2 hs)
  unfold imcwOf mcw
  rw [pack4_byte3 b2 b1 b0, pack4_byte2 b2 b1 b0, pack4_byte1 b2 b1 b0, pack4_byte0 b2 b1 b0]
  exact imcw_mcw hp hq hr hs

/-- A MixColumns word of four bytes fits in 32 bits. -/
theorem mcw_lt {p q r s : Nat} (hp : p < 256) (hq : q < 256) (hr : r < 256) (hs : s < 256) :
    mcw p q r s < 2^32 := by
  unfold mcw
  exact pack4_lt
    (xor_byte_lt (xor_byte_lt (xor_byte_lt (gmul_lt 2 hp) (gmul_lt 3 hq)) hr) hs)
    (xor_byte_lt (xor_byte_lt (xor_byte_lt hp (gmul_lt 2 hq)) (gmul_lt 3 hr)) hs)
    (xor_byte_lt (xor_byte_lt (xor_byte_lt hp hq) (gmul_lt 2 hr)) (gmul_lt 3 hs))
    (xor_byte_lt (xor_byte_lt (xor_byte_lt (gmul_lt 3 hp) hq) hr) (gmul_lt 2 hs))

/-- One fused decryption round with the inverse-MixColumn key undoes one fused
encryption round followed by the final-round byte shuffle. -/
theorem round_step (a0 a1 a2 a3 k0 k1 k2 k3 : Nat)
    (ha0 : a0 < 2^32) (ha1 : a1 < 2^32) (ha2 : a2 < 2^32) (ha3 : a3 < 2^32)
    (hk0 : k0 < 2^32) (hk1 : k1 < 2^32) (hk2 : k2 < 2^32) (hk3 : k3 < 2^32) :
    td_roundQ (ssq (te_roundQ (a0, a1, a2, a3) (k0, k1, k2, k3))) (imcq (k0, k1, k2, k3)) =
      ssq (a0, a1, a2, a3) := by
  have hTE : te_roundQ (a0, a1, a2, a3) (k0, k1, k2, k3) =
      (mcw (SBOX (a0 >>> 24)) (SBOX ((a1 >>> 16) &&& 255)) (SBOX ((a2 >>> 8) &&& 255))
         (SBOX (a3 &&& 255)) ^^^ k0,
       mcw (SBOX (a1 >>> 24)) (SBOX ((a2 >>> 16) &&& 255)) (SBOX ((a3 >>> 8) &&& 255))
         (SBOX (a0 &&& 255)) ^^^ k1,
       mcw (SBOX (a2 >>> 24)) (SBOX ((a3 >>> 16) &&& 255)) (SBOX ((a0 >>> 8) &&& 255))
         (SBOX (a1 &&& 255)) ^^^ k2,
       mcw (SBOX (a3 >>> 24)) (SBOX ((a0 >>> 16) &&& 255)) (SBOX ((a1 >>> 8) &&& 255))
         (SBOX (a2 &&& 255)) ^^^ k3) := by
    simp only [te_roundQ, te_round]
    rw [te_word_eq (shift24_lt ha0) (and255_lt _) (and255_lt _) (and255_lt _),
      te_word_eq (shift24_lt ha1) (and255_lt _) (and255_lt _) (and255_lt _),
      te_word_eq (shift24_lt ha2) (and255_lt _) (and255_lt _) (and255_lt _),
      te_word_eq (shift24_lt ha3) (and255_lt _) (and255_lt _) (and255_lt _)]
  have hM0 : mcw (SBOX (a0 >>> 24)) (SBOX ((a1 >>> 16) &&& 255)) (SBOX ((a2 >>> 8) &&& 255))
      (SBOX (a3 &&& 255)) < 2^32 := mcw_lt (SBOX_lt _) (SBOX_lt _) (SBOX_lt _) (SBOX_lt _)
  have hM1 : mcw (SBOX (a1 >>> 24)) (SBOX ((a2 >>> 16) &&& 255)) (SBOX ((a3 >>> 8) &&& 255))
      (SBOX (a0 &&& 255)) < 2^32 := mcw_lt (SBOX_lt _) (SBOX_lt _) (SBOX_lt _) (SBOX_lt _)
  have hM2 : mcw (SBOX (a2 >>> 24)) (SBOX ((a3 >>> 16) &&& 255)) (SBOX ((a0 >>> 8) &&& 255))
      (SBOX (a1 &&& 255)) < 2^32 := mcw_lt (SBOX_lt _) (SBOX_lt _) (SBOX_lt _) (SBOX_lt _)
  have hM3 : mcw (SBOX (a3 >>> 24)) (SBOX ((a0 >>> 16) &&& 255)) (SBOX ((a1 >>> 8) &&& 255))
      (SBOX (a2 &&& 255)) < 2^32 := mcw_lt (SBOX_lt _) (SBOX_lt _) (SBOX_lt _) (SBOX_lt _)
  have hT0 := xor32 hM0 hk0
  have hT1 := xor32 hM1 hk1
  have hT2 := xor32 hM2 hk2
  have hT3 := xor32 hM3 hk3
  rw [hTE]
  simp only [ssq, td_roundQ, td_round, imcq]
  rw [pack4_byte3 (SBOX_lt _) (SBOX_lt _) (SBOX_lt _), pack4_byte3 (SBOX_lt _) (SBOX_lt _)
      (SBOX_lt _), pack4_byte3 (SBOX_lt _) (SBOX_lt _) (SBOX_lt _),
    pack4_byte3 (SBOX_lt _) (SBOX_lt _) (SBOX_lt _)]
  rw [pack4_byte2 (SBOX_lt _) (SBOX_lt _) (SBOX_lt _), pack4_byte2 (SBOX_lt _) (SBOX_lt _)
      (SBOX_lt _), pack4_byte2 (SBOX_lt _) (SBOX_lt _) (SBOX_lt _),
    pack4_byte2 (SBOX_lt _) (SBOX_lt _) (SBOX_lt _)]
  rw [pack4_byte1 (SBOX_lt _) (SBOX_lt _) (SBOX_lt _), pack4_byte1 (SBOX_lt _) (SBOX_lt _)
      (SBOX_lt _), pack4_byte1 (SBOX_lt _) (SBOX_lt _) (SBOX_lt _),
    pack4_byte1 (SBOX_lt _) (SBOX_lt _) (SBOX_lt _)]
  rw [pack4_byte0 (SBOX_lt _) (SBOX_lt _) (SBOX_lt _), pack4_byte0 (SBOX_lt _) (SBOX_lt _)
      (SBOX_lt _), pack4_byte0 (SBOX_lt _) (SBOX_lt _) (SBOX_lt _),
    pack4_byte0 (SBOX_lt _) (SBOX_lt _) (SBOX_lt _)]
  rw [td_word_sbox hT0, td_word_sbox hT1, td_word_sbox hT2, td_word_sbox hT3]
  simp only [imcwOf_xor, Nat.xor_cancel_right]
  rw [imcwOf_mcw (SBOX_lt _) (SBOX_lt _) (SBOX_lt _) (SBOX_lt _),
    imcwOf_mcw (SBOX_lt _) (SBOX_lt _) (SBOX_lt _) (SBOX_lt _),
    imcwOf_mcw (SBOX_lt _) (SBOX_lt _) (SBOX_lt _) (SBOX_lt _),
    imcwOf_mcw (SBOX_lt _) (SBOX_lt _) (SBOX_lt _) (SBOX_lt _)]

/-- Quadruple form of `round_step`. -/
theorem round_stepQ {s k : Nat × Nat × Nat × Nat} (hs : QB s) (hk : QB k) :
    td_roundQ (ssq (te_roundQ s k)) (imcq k) = ssq s := by
  obtain ⟨s0, s1, s2, s3⟩ := s
  obtain ⟨k0, k1, k2, k3⟩ := k
  exact round_step s0 s1 s2 s3 k0 k1 k2 k3 hs.1 hs.2.1 hs.2.2.1 hs.2.2.2
    hk.1 hk.2.1 hk.2.2.1 hk.2.2.2

/-- An encryption round of 32-bit key words yields 32-bit state words. -/
theorem te_roundQ_lt (s : Nat × Nat × Nat × Nat) {k : Nat × Nat × Nat × Nat} (hk : QB k) :
    QB (te_roundQ s k) := by
  obtain ⟨s0, s1, s2, s3⟩ := s
  obtain ⟨k0, k1, k2, k3⟩ := k
  exact ⟨xor32 (xor32 (xor32 (xor32 (TE0_lt _) (TE1_lt _)) (TE2_lt _)) (TE3_lt _)) hk.1,
    xor32 (xor32 (xor32 (xor32 (TE0_lt _) (TE1_lt _)) (TE2_lt _)) (TE3_lt _)) hk.2.1,
    xor32 (xor32 (xor32 (xor32 (TE0_lt _) (TE1_lt _)) (TE2_lt _)) (TE3_lt _)) hk.2.2.1,
    xor32 (xor32 (xor32 (xor32 (TE0_lt _) (TE1_lt _)) (TE2_lt _)) (TE3_lt _)) hk.2.2.2⟩

/-- A decryption round of 32-bit key words yields 32-bit state words. -/
theorem td_roundQ_lt (s : Nat × Nat × Nat × Nat) {k : Nat × Nat × Nat × Nat} (hk : QB k) :
    QB (td_roundQ s k) := by
  obtain ⟨s0, s1, s2, s3⟩ := s
  obtain ⟨k0, k1, k2, k3⟩ := k
  exact ⟨xor32 (xor32 (xor32 (xor32 (TD0_lt _) (TD1_lt _)) (TD2_lt _)) (TD3_lt _)) hk.1,
    xor32 (xor32 (xor32 (xor32 (TD0_lt _) (TD1_lt _)) (TD2_lt _)) (TD3_lt _)) hk.2.1,
    xor32 (xor32 (xor32 (xor32 (TD0_lt _) (TD1_lt _)) (TD2_lt _)) (TD3_lt _)) hk.2.2.1,
    xor32 (xor32 (xor32 (xor32 (TD0_lt _) (TD1_lt _)) (TD2_lt _)) (TD3_lt _)) hk.2.2.2⟩

/-- Encryption chains keep all state words below 2^32. -/
theorem eChain_lt (K : Nat → Nat × Nat × Nat × Nat) (hK : ∀ r, QB (K r)) :
    ∀ n (s : Nat × Nat × Nat × Nat), QB s → QB (eChain K n s) := by
  intro n
  induction n with
  | zero => intro s hs; exact hs
  | succ n ih => intro s hs; exact te_roundQ_lt _ (hK (n+1))

/-- The decryption chain with inverse-MixColumn keys, applied to the fused
final shuffle of the encryption chain, recovers the shuffle of the start state. -/
theorem chain_inv (K : Nat → Nat × Nat × Nat × Nat) (hK : ∀ r, QB (K r)) :
    ∀ n (s : Nat × Nat × Nat × Nat), QB s →
      dChain (fun r => imcq (K r)) n (ssq (eChain K n s)) = ssq s := by
  intro n
  induction n with
  | zero => intro s _; rfl
  | succ n ih =>
    intro s hs
    show dChain _ n (td_roundQ (ssq (te_roundQ (eChain K n s) (K (n+1)))) (imcq (K (n+1)))) =
      ssq s
    rw [round_stepQ (eChain_lt K hK n s hs) (hK (n+1))]
    exact ih s hs


/-! ### The block functions as round chains -/

/-- Destructuring match to projections for the final encryption round. -/
theorem match_enc_final (E : Nat × Nat × Nat × Nat) (a b c d : Nat) :
    (match E with | (w0, w1, w2, w3) => enc_final w0 w1 w2 w3 a b c d) =
      enc_final E.1 E.2.1 E.2.2.1 E.2.2.2 a b c d := by
  obtain ⟨e0, e1, e2, e3⟩ := E
  rfl

/-- Destructuring match to projections for the final decryption round. -/
theorem match_dec_final (E : Nat × Nat × Nat × Nat) (a b c d : Nat) :
    (match E with | (w0, w1, w2, w3) => dec_final w0 w1 w2 w3 a b c d) =
      dec_final E.1 E.2.1 E.2.2.1 E.2.2.2 a b c d := by
  obtain ⟨e0, e1, e2, e3⟩ := E
  rfl

/-- `ssq` written with projections. -/
theorem ssq_proj (s : Nat × Nat × Nat × Nat) :
    ssq s =
      (four_u8_to_u32 (SBOX (s.1 >>> 24)) (SBOX ((s.2.1 >>> 16) &&& 255))
         (SBOX ((s.2.2.1 >>> 8) &&& 255)) (SBOX (s.2.2.2 &&& 255)),
       four_u8_to_u32 (SBOX (s.2.1 >>> 24)) (SBOX ((s.2.2.1 >>> 16) &&& 255))
         (SBOX ((s.2.2.2 >>> 8) &&& 255)) (SBOX (s.1 &&& 255)),
       four_u8_to_u32 (SBOX (s.2.2.1 >>> 24)) (SBOX ((s.2.2.2 >>> 16) &&& 255))
         (SBOX ((s.1 >>> 8) &&& 255)) (SBOX (s.2.1 &&& 255)),
       four_u8_to_u32 (SBOX (s.2.2.2 >>> 24)) (SBOX ((s.1 >>> 16) &&& 255))
         (SBOX ((s.2.1 >>> 8) &&& 255)) (SBOX (s.2.2.1 &&& 255))) := by
  obtain ⟨a0, a1, a2, a3⟩ := s
  rfl

/-- A byte is fixed by the byte mask. -/
theorem and255_of_lt {x : Nat} (hx : x < 256) : x &&& 255 = x := by
  rw [and255_eq_mod]
  omega

/-- `getD` of a list of bounded values is bounded. -/
theorem getD_lt_of_forall {l : List Nat} {B : Nat} (h : ∀ w ∈ l, w < B) (hB : 0 < B)
    (i : Nat) : l.getD i 0 < B := by
  rcases hx : l[i]? with _ | v
  · simp [List.getD_eq_getElem?_getD, hx, hB]
  · have hv : v ∈ l := List.getElem?_mem hx
    simp [List.getD_eq_getElem?_getD, hx]
    exact h v hv

/-- Key groups of a bounded schedule are bounded. -/
theorem kgroup_lt {keys : List Nat} (h : ∀ w ∈ keys, w < 2^32) (r : Nat) :
    QB (kgroup keys r) :=
  ⟨getD_lt_of_forall h (by norm_num) _, getD_lt_of_forall h (by norm_num) _,
   getD_lt_of_forall h (by norm_num) _, getD_lt_of_forall h (by norm_num) _⟩

/-- Byte 3 of a pack of S-box values. -/
theorem pack4_sbox_byte3 (a b c d : Nat) :
    four_u8_to_u32 (SBOX a) (SBOX b) (SBOX c) (SBOX d) >>> 24 = SBOX a :=
  pack4_byte3 (SBOX_lt _) (SBOX_lt _) (SBOX_lt _)

/-- Byte 2 of a pack of S-box values. -/
theorem pack4_sbox_byte2 (a b c d : Nat) :
    (four_u8_to_u32 (SBOX a) (SBOX b) (SBOX c) (SBOX d) >>> 16) &&& 255 = SBOX b :=
  pack4_byte2 (SBOX_lt _) (SBOX_lt _) (SBOX_lt _)

/-- Byte 1 of a pack of S-box values. -/
theorem pack4_sbox_byte1 (a b c d : Nat) :
    (four_u8_to_u32 (SBOX a) (SBOX b) (SBOX c) (SBOX d) >>> 8) &&& 255 = SBOX c :=
  pack4_byte1 (SBOX_lt _) (SBOX_lt _) (SBOX_lt _)

/-- Byte 0 of a pack of S-box values. -/
theorem pack4_sbox_byte0 (a b c d : Nat) :
    four_u8_to_u32 (SBOX a) (SBOX b) (SBOX c) (SBOX d) &&& 255 = SBOX d :=
  pack4_byte0 (SBOX_lt _) (SBOX_lt _) (SBOX_lt _)

/-- The inverse S-box undoes the S-box on a masked byte. -/
theorem sinv_sbox_and (y : Nat) : SINV (SBOX (y &&& 255)) = y &&& 255 :=
  sinv_sbox (and255_lt y)

/-- `dChain` only reads key groups `1 .. n`. -/
theorem dChain_congr (D E : Nat → Nat × Nat × Nat × Nat) :
    ∀ n, (∀ r, 1 ≤ r → r ≤ n → D r = E r) →
      ∀ t, dChain D n t = dChain E n t := by
  intro n
  induction n with
  | zero => intro _ _; rfl
  | succ n ih =>
    intro h t
    show dChain D n (td_roundQ t (D (n+1))) = dChain E n (td_roundQ t (E (n+1)))
    rw [h (n+1) (by omega) (by omega)]
    exact ih (fun r h1 h2 => h r h1 (by omega)) _

/-- The 128-bit encryption loop is the nine-round chain. -/
theorem foldl_eq_eChain128 (keys : List Nat) (s : Nat × Nat × Nat × Nat) :
    (List.range' 1 (5 - 1)).foldl (fun wb i =>
      te_round (te_round wb (keys.getD (8*i) 0) (keys.getD (8*i+1) 0) (keys.getD (8*i+2) 0)
        (keys.getD (8*i+3) 0))
        (keys.getD (8*i+4) 0) (keys.getD (8*i+5) 0) (keys.getD (8*i+6) 0)
        (keys.getD (8*i+7) 0))
      (te_round s (keys.getD 4 0) (keys.getD 5 0) (keys.getD 6 0) (keys.getD 7 0))
    = eChain (kgroup keys) 9 s := by
  have hr : List.range' 1 (5 - 1) = [1, 2, 3, 4] := rfl
  simp only [hr, List.foldl_cons, List.foldl_nil, eChain, te_roundQ, kgroup]

/-- The 128-bit decryption loop is the nine-round reverse chain. -/
theorem foldl_eq_dChain128 (keys : List Nat) (t : Nat × Nat × Nat × Nat) :
    (List.range' 1 (5 - 1)).foldl (fun wb i =>
      td_round (td_round wb (keys.getD (44-4-8*i) 0) (keys.getD (44-3-8*i) 0)
        (keys.getD (44-2-8*i) 0) (keys.getD (44-1-8*i) 0))
        (keys.getD (44-8-8*i) 0) (keys.getD (44-7-8*i) 0) (keys.getD (44-6-8*i) 0)
        (keys.getD (44-5-8*i) 0))
      (td_round t (keys.getD (44-8) 0) (keys.getD (44-7) 0) (keys.getD (44-6) 0)
        (keys.getD (44-5) 0))
    = dChain (kgroup keys) 9 t := by
  have hr : List.range' 1 (5 - 1) = [1, 2, 3, 4] := rfl
  simp only [hr, List.foldl_cons, List.foldl_nil, dChain, td_roundQ, kgroup]

/-- Whitening with the last round key cancels against the final-round key bytes. -/
theorem pack4_sbox_cancel (u0 u1 u2 u3 : Nat) {k : Nat} (hk : k < 2^32) :
    four_u8_to_u32 (SBOX u0 ^^^ ((k >>> 24) &&& 255)) (SBOX u1 ^^^ ((k >>> 16) &&& 255))
      (SBOX u2 ^^^ ((k >>> 8) &&& 255)) (SBOX u3 ^^^ (k &&& 255)) ^^^ k
    = four_u8_to_u32 (SBOX u0) (SBOX u1) (SBOX u2) (SBOX u3) := by
  rw [and255_of_lt (shift24_lt hk), ← four_u8_to_u32_xor, pack4_unpack hk,
    Nat.xor_cancel_right]

/-- Interior key groups of the decryption schedule are the inverse MixColumns
of the encryption key groups. -/
theorem dkey_kgroup {keys : List Nat} {L G : Nat} (hklen : keys.length = L)
    (hkw : ∀ w ∈ keys, w < 2^32) (hLG : 4*G + 3 < L - 4) :
    ∀ r, 1 ≤ r → r ≤ G → kgroup (dkey_mixcolumn keys L) r = imcq (kgroup keys r) := by
  intro r h1 hG
  have h0 : (dkey_mixcolumn keys L).getD (4*r) 0 = imcwOf (keys.getD (4*r) 0) := by
    rw [dkey_mixcolumn_getD _ _ _ (by rw [hklen]; omega),
      if_pos (by omega : 4 ≤ 4*r ∧ 4*r < L - 4),
      dkey_word_eq (getD_lt_of_forall hkw (by norm_num) _)]
  have h1b : (dkey_mixcolumn keys L).getD (4*r+1) 0 = imcwOf (keys.getD (4*r+1) 0) := by
    rw [dkey_mixcolumn_getD _ _ _ (by rw [hklen]; omega),
      if_pos (by omega : 4 ≤ 4*r+1 ∧ 4*r+1 < L - 4),
      dkey_word_eq (getD_lt_of_forall hkw (by norm_num) _)]
  have h2b : (dkey_mixcolumn keys L).getD (4*r+2) 0 = imcwOf (keys.getD (4*r+2) 0) := by
    rw [dkey_mixcolumn_getD _ _ _ (by rw [hklen]; omega),
      if_pos (by omega : 4 ≤ 4*r+2 ∧ 4*r+2 < L - 4),
      dkey_word_eq (getD_lt_of_forall hkw (by norm_num) _)]
  have h3b : (dkey_mixcolumn keys L).getD (4*r+3) 0 = imcwOf (keys.getD (4*r+3) 0) := by
    rw [dkey_mixcolumn_getD _ _ _ (by rw [hklen]; omega),
      if_pos (by omega : 4 ≤ 4*r+3 ∧ 4*r+3 < L - 4),
      dkey_word_eq (getD_lt_of_forall hkw (by norm_num) _)]
  simp only [kgroup, imcq]
  rw [h0, h1b, h2b, h3b]

/-- The final decryption round applied to the shuffled whitened state recovers
the sixteen plaintext bytes. -/
theorem dec_final_inv
    (x0 x1 x2 x3 x4 x5 x6 x7 x8 x9 x10 x11 x12 x13 x14 x15 k0 k1 k2 k3 : Nat)
    (hx0 : x0 < 256) (hx1 : x1 < 256) (hx2 : x2 < 256) (hx3 : x3 < 256)
    (hx4 : x4 < 256) (hx5 : x5 < 256) (hx6 : x6 < 256) (hx7 : x7 < 256)
    (hx8 : x8 < 256) (hx9 : x9 < 256) (hx10 : x10 < 256) (hx11 : x11 < 256)
    (hx12 : x12 < 256) (hx13 : x13 < 256) (hx14 : x14 < 256) (hx15 : x15 < 256)
    (hk0 : k0 < 2^32) (hk1 : k1 < 2^32) (hk2 : k2 < 2^32) (hk3 : k3 < 2^32) :
    dec_final
      ((ssq (four_u8_to_u32 x0 x1 x2 x3 ^^^ k0, four_u8_to_u32 x4 x5 x6 x7 ^^^ k1,
        four_u8_to_u32 x8 x9 x10 x11 ^^^ k2, four_u8_to_u32 x12 x13 x14 x15 ^^^ k3)).1)
      ((ssq (four_u8_to_u32 x0 x1 x2 x3 ^^^ k0, four_u8_to_u32 x4 x5 x6 x7 ^^^ k1,
        four_u8_to_u32 x8 x9 x10 x11 ^^^ k2, four_u8_to_u32 x12 x13 x14 x15 ^^^ k3)).2.1)
      ((ssq (four_u8_to_u32 x0 x1 x2 x3 ^^^ k0, four_u8_to_u32 x4 x5 x6 x7 ^^^ k1,
        four_u8_to_u32 x8 x9 x10 x11 ^^^ k2, four_u8_to_u32 x12 x13 x14 x15 ^^^ k3)).2.2.1)
      ((ssq (four_u8_to_u32 x0 x1 x2 x3 ^^^ k0, four_u8_to_u32 x4 x5 x6 x7 ^^^ k1,
        four_u8_to_u32 x8 x9 x10 x11 ^^^ k2, four_u8_to_u32 x12 x13 x14 x15 ^^^ k3)).2.2.2)
      k0 k1 k2 k3
    = [x0, x1, x2, x3, x4, x5, x6, x7, x8, x9, x10, x11, x12, x13, x14, x15] := by
  have hs0 : four_u8_to_u32 x0 x1 x2 x3 ^^^ k0 < 2^32 :=
    xor32 (pack4_lt hx0 hx1 hx2 hx3) hk0
  have hs1 : four_u8_to_u32 x4 x5 x6 x7 ^^^ k1 < 2^32 :=
    xor32 (pack4_lt hx4 hx5 hx6 hx7) hk1
  have hs2 : four_u8_to_u32 x8 x9 x10 x11 ^^^ k2 < 2^32 :=
    xor32 (pack4_lt hx8 hx9 hx10 hx11) hk2
  have hs3 : four_u8_to_u32 x12 x13 x14 x15 ^^^ k3 < 2^32 :=
    xor32 (pack4_lt hx12 hx13 hx14 hx15) hk3
  simp only [ssq, dec_final]
  rw [pack4_sbox_byte3, pack4_sbox_byte2, pack4_sbox_byte1, pack4_sbox_byte0,
    pack4_sbox_byte3, pack4_sbox_byte2, pack4_sbox_byte1, pack4_sbox_byte0,
    pack4_sbox_byte3, pack4_sbox_byte2, pack4_sbox_byte1, pack4_sbox_byte0,
    pack4_sbox_byte3, pack4_sbox_byte2, pack4_sbox_byte1, pack4_sbox_byte0]
  rw [sinv_sbox (shift24_lt hs0), sinv_sbox (shift24_lt hs1), sinv_sbox (shift24_lt hs2),
    sinv_sbox (shift24_lt hs3)]
  simp only [sinv_sbox_and]
  simp only [shift24_xor, shift_and_xor, and255_xor]
  simp only [pack4_byte3 hx1 hx2 hx3, pack4_byte2 hx1 hx2 hx3, pack4_byte1 hx1 hx2 hx3,
    pack4_byte0 hx1 hx2 hx3, pack4_byte3 hx5 hx6 hx7, pack4_byte2 hx5 hx6 hx7,
    pack4_byte1 hx5 hx6 hx7, pack4_byte0 hx5 hx6 hx7, pack4_byte3 hx9 hx10 hx11,
    pack4_byte2 hx9 hx10 hx11, pack4_byte1 hx9 hx10 hx11, pack4_byte0 hx9 hx10 hx11,
    pack4_byte3 hx13 hx14 hx15, pack4_byte2 hx13 hx14 hx15, pack4_byte1 hx13 hx14 hx15,
    pack4_byte0 hx13 hx14 hx15]
  simp only [Nat.xor_cancel_right]
  rw [and255_of_lt (shift24_lt hk0), and255_of_lt (shift24_lt hk1),
    and255_of_lt (shift24_lt hk2), and255_of_lt (shift24_lt hk3)]
  simp only [Nat.xor_cancel_right]

/-- Shallow shape of the 128-bit encryption pipeline. -/
theorem enc128_shape (x0 x1 x2 x3 x4 x5 x6 x7 x8 x9 x10 x11 x12 x13 x14 x15 : Nat)
    (keys : List Nat) :
    encryption_core [x0, x1, x2, x3, x4, x5, x6, x7, x8, x9, x10, x11, x12, x13, x14, x15]
      keys 5 44 =
    (match (List.range' 1 (5 - 1)).foldl (fun wb i =>
        te_round (te_round wb (keys.getD (8*i) 0) (keys.getD (8*i+1) 0) (keys.getD (8*i+2) 0)
          (keys.getD (8*i+3) 0))
          (keys.getD (8*i+4) 0) (keys.getD (8*i+5) 0) (keys.getD (8*i+6) 0)
          (keys.getD (8*i+7) 0))
      (te_round
        (four_u8_to_u32 x0 x1 x2 x3 ^^^ keys.getD 0 0,
         four_u8_to_u32 x4 x5 x6 x7 ^^^ keys.getD 1 0,
         four_u8_to_u32 x8 x9 x10 x11 ^^^ keys.getD 2 0,
         four_u8_to_u32 x12 x13 x14 x15 ^^^ keys.getD 3 0)
        (keys.getD 4 0) (keys.getD 5 0) (keys.getD 6 0) (keys.getD 7 0)) with
     | (w0, w1, w2, w3) =>
       enc_final w0 w1 w2 w3 (keys.getD (44-4) 0) (keys.getD (44-3) 0) (keys.getD (44-2) 0)
         (keys.getD (44-1) 0)) := by
  rfl

/-- Shallow shape of the 128-bit decryption pipeline. -/
theorem dec128_shape (c0 c1 c2 c3 c4 c5 c6 c7 c8 c9 c10 c11 c12 c13 c14 c15 : Nat)
    (keys : List Nat) :
    decryption_core [c0, c1, c2, c3, c4, c5, c6, c7, c8, c9, c10, c11, c12, c13, c14, c15]
      keys 5 44 =
    (match (List.range' 1 (5 - 1)).foldl (fun wb i =>
        td_round (td_round wb (keys.getD (44-4-8*i) 0) (keys.getD (44-3-8*i) 0)
          (keys.getD (44-2-8*i) 0) (keys.getD (44-1-8*i) 0))
          (keys.getD (44-8-8*i) 0) (keys.getD (44-7-8*i) 0) (keys.getD (44-6-8*i) 0)
          (keys.getD (44-5-8*i) 0))
      (td_round
        (four_u8_to_u32 c0 c1 c2 c3 ^^^ keys.getD (44-4) 0,
         four_u8_to_u32 c4 c5 c6 c7 ^^^ keys.getD (44-3) 0,
         four_u8_to_u32 c8 c9 c10 c11 ^^^ keys.getD (44-2) 0,
         four_u8_to_u32 c12 c13 c14 c15 ^^^ keys.getD (44-1) 0)
        (keys.getD (44-8) 0) (keys.getD (44-7) 0) (keys.getD (44-6) 0)
        (keys.getD (44-5) 0)) with
     | (w0, w1, w2, w3) =>
       dec_final w0 w1 w2 w3 (keys.getD 0 0) (keys.getD 1 0) (keys.getD 2 0)
         (keys.getD 3 0)) := by
  rfl

/-- Core round-trip for the 128-bit pipeline: decrypting with the
inverse-MixColumn schedule undoes encrypting with the plain schedule. -/
theorem roundtrip128_core
    (x0 x1 x2 x3 x4 x5 x6 x7 x8 x9 x10 x11 x12 x13 x14 x15 : Nat) (keys : List Nat)
    (hx0 : x0 < 256) (hx1 : x1 < 256) (hx2 : x2 < 256) (hx3 : x3 < 256)
    (hx4 : x4 < 256) (hx5 : x5 < 256) (hx6 : x6 < 256) (hx7 : x7 < 256)
    (hx8 : x8 < 256) (hx9 : x9 < 256) (hx10 : x10 < 256) (hx11 : x11 < 256)
    (hx12 : x12 < 256) (hx13 : x13 < 256) (hx14 : x14 < 256) (hx15 : x15 < 256)
    (hkw : ∀ w ∈ keys, w < 2^32) (hklen : keys.length = 44) :
    decryption_core
      (encryption_core [x0, x1, x2, x3, x4, x5, x6, x7, x8, x9, x10, x11, x12, x13, x14, x15]
        keys 5 44)
      (dkey_mixcolumn keys 44) 5 44
    = [x0, x1, x2, x3, x4, x5, x6, x7, x8, x9, x10, x11, x12, x13, x14, x15] := by
  have hK : ∀ r, QB (kgroup keys r) := kgroup_lt hkw
  have hgd : ∀ i : Nat, keys.getD i 0 < 2^32 := getD_lt_of_forall hkw (by norm_num)
  have hs0 : QB (four_u8_to_u32 x0 x1 x2 x3 ^^^ keys.getD 0 0,
      four_u8_to_u32 x4 x5 x6 x7 ^^^ keys.getD 1 0,
      four_u8_to_u32 x8 x9 x10 x11 ^^^ keys.getD 2 0,
      four_u8_to_u32 x12 x13 x14 x15 ^^^ keys.getD 3 0) :=
    ⟨xor32 (pack4_lt hx0 hx1 hx2 hx3) (hgd 0), xor32 (pack4_lt hx4 hx5 hx6 hx7) (hgd 1),
     xor32 (pack4_lt hx8 hx9 hx10 hx11) (hgd 2), xor32 (pack4_lt hx12 hx13 hx14 hx15) (hgd 3)⟩
  rw [enc128_shape, foldl_eq_eChain128, match_enc_final]
  simp only [enc_final]
  rw [dec128_shape]
  have hdE : ∀ i, i < 44 → ¬(4 ≤ i ∧ i < 44 - 4) →
      (dkey_mixcolumn keys 44).getD i 0 = keys.getD i 0 := by
    intro i hi hni
    rw [dkey_mixcolumn_getD _ _ _ (by rw [hklen]; exact hi), if_neg hni]
  rw [hdE (44-4) (by omega) (by omega), hdE (44-3) (by omega) (by omega),
    hdE (44-2) (by omega) (by omega), hdE (44-1) (by omega) (by omega),
    hdE 0 (by omega) (by omega), hdE 1 (by omega) (by omega), hdE 2 (by omega) (by omega),
    hdE 3 (by omega) (by omega)]
  rw [foldl_eq_dChain128, match_dec_final]
  rw [pack4_sbox_cancel _ _ _ _ (hgd (44-4)), pack4_sbox_cancel _ _ _ _ (hgd (44-3)),
    pack4_sbox_cancel _ _ _ _ (hgd (44-2)), pack4_sbox_cancel _ _ _ _ (hgd (44-1))]
  rw [← ssq_proj]
  rw [dChain_congr (kgroup (dkey_mixcolumn keys 44)) (fun r => imcq (kgroup keys r)) 9
    (fun r h1 h2 => dkey_kgroup hklen hkw (by omega) r h1 h2)]
  rw [chain_inv (kgroup keys) hK 9 _ hs0]
  exact dec_final_inv x0 x1 x2 x3 x4 x5 x6 x7 x8 x9 x10 x11 x12 x13 x14 x15 _ _ _ _
    hx0 hx1 hx2 hx3 hx4 hx5 hx6 hx7 hx8 hx9 hx10 hx11 hx12 hx13 hx14 hx15
    (hgd 0) (hgd 1) (hgd 2) (hgd 3)
